import Mathlib

/-! Livestream handlers of isucon13 (webapp/go/livestream_handler.go)

A shallow embedding of the handlers of `livestream_handler.go`.

* The MySQL database is a record of tables; a table is the list of its rows in
  storage order.  A `SELECT` without `ORDER BY` returns the matching rows in that
  order, `GetContext` takes the first matching row (`sql.ErrNoRows` when there is
  none), `INSERT` appends a row numbered by the table's auto-increment counter.
* A transaction works on a copy of the database.  `Commit` installs the copy,
  every other exit runs the deferred `Rollback` and leaves the database as it was.
* Every database call can fail for reasons outside the program (connection loss
  and the like).  Each handler takes a record of fault flags, one per call site,
  that says which calls fail; the text of the driver's error is not modelled, the
  messages carry the fixed part only.
* `int64` values are integers; where the program leaves the `int64` range the
  wrap-around (Go) or the out-of-range error (MySQL) is written out.
-/

namespace Isucon13

/-! ## Machine integers and `time` -/

/-- Smallest `int64`. -/
def int64Min : Int := -(2 ^ 63)

/-- Largest `int64`. -/
def int64Max : Int := 2 ^ 63 - 1

/-- Go's `int64` addition wraps: the representative of `x` in the `int64` range. -/
def wrapInt64 (x : Int) : Int := (x + 2 ^ 63) % 2 ^ 64 - 2 ^ 63

/-- Leap years of the Gregorian calendar. -/
def isLeap (year : Nat) : Bool := year % 4 == 0 && (year % 100 != 0 || year % 400 == 0)

/-- Days from 1 January of year 1 to 1 January of `year`. -/
def daysSinceYear1 (year : Nat) : Nat :=
  let y := year - 1
  365 * y + y / 4 - y / 100 + y / 400

/-- Days of a non-leap year before the first day of `month` (1 = January). -/
def daysBefore (month : Nat) : Nat :=
  [0, 31, 59, 90, 120, 151, 181, 212, 243, 273, 304, 334].getD (month - 1) 0

/-- The value of `time.Date(year, month, day, hour, min, sec, 0, time.UTC)`: a `time.Time` without
monotonic reading is its number of seconds since 1 January of year 1 (the nanoseconds are 0). -/
def timeDate (year month day hour min sec : Nat) : Int :=
  let days := daysSinceYear1 year + daysBefore month
    + (if isLeap year && decide (3 ≤ month) then 1 else 0) + (day - 1)
  ((days * 86400 + hour * 3600 + min * 60 + sec : Nat) : Int)

/-- Seconds from 1 January of year 1 to the Unix epoch (`unixToInternal` of package `time`). -/
def unixToInternal : Int := (1969 * 365 + 1969 / 4 - 1969 / 100 + 1969 / 400) * 86400

/-- The value of `time.Unix(sec, 0)`: `sec + unixToInternal` in `int64` arithmetic. -/
def timeUnix (sec : Int) : Int := wrapInt64 (sec + unixToInternal)

/-- The method `Time.Unix()`. -/
def Time_Unix (t : Int) : Int := t - unixToInternal

/-! ## Rows and response objects -/

structure ReserveLivestreamRequest where
  Tags : List Int
  Title : String
  Description : String
  PlaylistUrl : String
  ThumbnailUrl : String
  StartAt : Int
  EndAt : Int
  deriving DecidableEq, Repr

structure LivestreamViewerModel where
  UserID : Int
  LivestreamID : Int
  CreatedAt : Int
  deriving DecidableEq, Repr

structure LivestreamModel where
  ID : Int
  UserID : Int
  Title : String
  Description : String
  PlaylistUrl : String
  ThumbnailUrl : String
  StartAt : Int
  EndAt : Int
  Tip : Int
  ReactionsCount : Int
  deriving DecidableEq, Repr

structure LivestreamTagModel where
  ID : Int
  LivestreamID : Int
  TagID : Int
  deriving DecidableEq, Repr

structure ReservationSlotModel where
  ID : Int
  Slot : Int
  StartAt : Int
  EndAt : Int
  deriving DecidableEq, Repr

structure IconModel where
  ID : Int
  UserID : Int
  IconHash : String
  deriving DecidableEq, Repr

/-- Row of `tags` and element of a response's tag list (type `Tag`, declared outside this source
file; the handlers scan `SELECT * FROM tags` into it). -/
structure Tag where
  ID : Int
  Name : String
  deriving DecidableEq, Repr

/-- Row of `users` (type `UserModel`, declared outside this source file), with the columns the
handlers read. -/
structure UserModel where
  ID : Int
  Name : String
  DisplayName : String
  Description : String
  deriving DecidableEq, Repr

/-- Row of `themes` (type `ThemeModel`, declared outside this source file). -/
structure ThemeModel where
  ID : Int
  UserID : Int
  DarkMode : Bool
  deriving DecidableEq, Repr

/-- Theme of a user in a response (type `Theme`, declared outside this source file). -/
structure Theme where
  ID : Int
  DarkMode : Bool
  deriving DecidableEq, Repr

/-- User in a response (type `User`, declared outside this source file). -/
structure User where
  ID : Int
  Name : String
  DisplayName : String
  Description : String
  Theme : Theme
  IconHash : String
  deriving DecidableEq, Repr

structure Livestream where
  ID : Int
  Owner : User
  Title : String
  Description : String
  PlaylistUrl : String
  ThumbnailUrl : String
  Tags : List Tag
  StartAt : Int
  EndAt : Int
  deriving DecidableEq, Repr

/-- Row of `livecomment_reports` (type `LivecommentReportModel`, declared outside this source
file): the report's id, the reporter, the livestream, the reported comment, the creation time. -/
structure LivecommentReportModel where
  ID : Int
  UserID : Int
  LivestreamID : Int
  LivecommentID : Int
  CreatedAt : Int
  deriving DecidableEq, Repr

/-! ## The database -/

/-- The tables the handlers of this file touch, the auto-increment counters of the two tables
they insert into with a generated id, and the defaults of the two `livestreams` columns that the
`INSERT` of `reserveLivestreamHandler` does not name. -/
structure DB where
  reservation_slots : List ReservationSlotModel
  livestreams : List LivestreamModel
  livestream_tags : List LivestreamTagModel
  tags : List Tag
  users : List UserModel
  themes : List ThemeModel
  icons : List IconModel
  livestream_viewers_history : List LivestreamViewerModel
  livecomment_reports : List LivecommentReportModel
  livestreamsNextID : Int
  livestreamTagsNextID : Int
  tipDefault : Int
  reactionsCountDefault : Int
  deriving DecidableEq, Repr

/-! ## HTTP results -/

/-- An `echo.HTTPError`: status code and message. -/
structure HTTPError where
  status : Nat
  message : String
  deriving DecidableEq, Repr

/-- What a handler does with the request: a JSON response, a response without body, an HTTP
error, or a run-time panic on a nil pointer. -/
inductive Response (α : Type) where
  | json (status : Nat) (body : α)
  | noContent (status : Nat)
  | httpError (e : HTTPError)
  | nilPanic
  deriving DecidableEq, Repr

/-- The status code of a response, when there is one. -/
def Response.status {α : Type} : Response α → Option Nat
  | .json s _ => some s
  | .noContent s => some s
  | .httpError e => some e.status
  | .nilPanic => none

deriving instance DecidableEq for Except

/-- The outcome of `verifyUserSession` followed by the read of the user id from the session:
the error that `verifyUserSession` returns, or the id of the signed-in user. -/
abbrev Session := Except HTTPError Int

/-! ## fillLivestreamResponse -/

/-- Fault flags of the database calls of `fillLivestreamResponse`. -/
structure FillFaults where
  getOwner : Bool := false
  selectTagIDs : Bool := false
  selectTags : Bool := false

/-- `fillLivestreamResponse`.  `fillUser` is `fillUserResponse`, which this source file calls
and does not define. -/
def fillLivestreamResponse (fillUser : DB → UserModel → Except String User) (f : FillFaults)
    (tx : DB) (livestreamModel : LivestreamModel) : Except String Livestream :=
  if f.getOwner then .error "get owner" else
  match tx.users.find? (fun u => u.ID == livestreamModel.UserID) with
  | none => .error "sql: no rows in result set"
  | some ownerModel =>
    match fillUser tx ownerModel with
    | .error e => .error e
    | .ok owner =>
      if f.selectTagIDs then .error "select tag ids" else
      let tagIDs : List Int :=
        (tx.livestream_tags.filter (fun t => t.LivestreamID == livestreamModel.ID)).map
          (fun t => t.TagID)
      -- tags := make([]Tag, len(tagIDs)); SelectContext replaces the slice's content
      let zeroTags : List Tag := List.replicate tagIDs.length ⟨0, ""⟩
      if 0 < tagIDs.length then
        if f.selectTags then .error "select tags" else
        let tags := tx.tags.filter (fun t => tagIDs.contains t.ID)
        .ok { ID := livestreamModel.ID, Owner := owner, Title := livestreamModel.Title,
              Tags := tags, Description := livestreamModel.Description,
              PlaylistUrl := livestreamModel.PlaylistUrl,
              ThumbnailUrl := livestreamModel.ThumbnailUrl,
              StartAt := livestreamModel.StartAt, EndAt := livestreamModel.EndAt }
      else
        .ok { ID := livestreamModel.ID, Owner := owner, Title := livestreamModel.Title,
              Tags := zeroTags, Description := livestreamModel.Description,
              PlaylistUrl := livestreamModel.PlaylistUrl,
              ThumbnailUrl := livestreamModel.ThumbnailUrl,
              StartAt := livestreamModel.StartAt, EndAt := livestreamModel.EndAt }

/-! ## reserveLivestreamHandler -/

/-- Fault flags of the database calls of `reserveLivestreamHandler`; the calls made in a loop
are numbered by the iteration. -/
structure ReserveFaults where
  beginTx : Bool := false
  selectSlots : Bool := false
  getCount : Nat → Bool := fun _ => false
  updateSlots : Bool := false
  insertLivestream : Bool := false
  lastInsertId : Bool := false
  insertTag : Nat → Bool := fun _ => false
  fill : FillFaults := {}
  commit : Bool := false

/-- Start of the reservation term: `time.Date(2023, 11, 25, 1, 0, 0, 0, time.UTC)`. -/
def termStartAt : Int := timeDate 2023 11 25 1 0 0

/-- End of the reservation term: `time.Date(2024, 11, 25, 1, 0, 0, 0, time.UTC)`. -/
def termEndAt : Int := timeDate 2024 11 25 1 0 0

/-- The condition of line 110, under which the request is refused:
`reserveStartAt` is at or after `termEndAt`, or `reserveEndAt` is at or before `termStartAt`. -/
def badTimeRange (req : ReserveLivestreamRequest) : Bool :=
  let reserveStartAt := timeUnix req.StartAt
  let reserveEndAt := timeUnix req.EndAt
  (reserveStartAt == termEndAt || decide (termEndAt < reserveStartAt))
    || (reserveEndAt == termStartAt || decide (reserveEndAt < termStartAt))

/-- The `WHERE start_at >= ? AND end_at <= ?` of the `SELECT ... FOR UPDATE` and of the
`UPDATE`, with the arguments `req.StartAt, req.EndAt`. -/
def isCandidate (req : ReserveLivestreamRequest) (r : ReservationSlotModel) : Bool :=
  decide (req.StartAt ≤ r.StartAt) && decide (r.EndAt ≤ req.EndAt)

/-- The rows returned, and locked, by
`SELECT * FROM reservation_slots WHERE start_at >= ? AND end_at <= ? FOR UPDATE`. -/
def selectSlotsForUpdate (req : ReserveLivestreamRequest) (tx : DB) : List ReservationSlotModel :=
  tx.reservation_slots.filter (isCandidate req)

/-- The message of the 400 that refuses a full slot. -/
def fullSlotMessage (req : ReserveLivestreamRequest) : String :=
  "予約期間 " ++ toString (Time_Unix termStartAt) ++ " ~ " ++ toString (Time_Unix termEndAt)
    ++ "に対して、予約区間 " ++ toString req.StartAt ++ " ~ " ++ toString req.EndAt
    ++ "が予約できません"

/-- The loop of lines 121-130 over the locked rows, from iteration `i` on: for each row, read
`slot` of the first row with the same `start_at` and `end_at`, and refuse when it is below 1. -/
def checkSlots (f : ReserveFaults) (tx : DB) (req : ReserveLivestreamRequest) :
    List ReservationSlotModel → Nat → Except HTTPError Unit
  | [], _ => .ok ()
  | slot :: rest, i =>
    if f.getCount i then .error ⟨500, "failed to get reservation_slots: "⟩ else
    match tx.reservation_slots.find?
        (fun r => r.StartAt == slot.StartAt && r.EndAt == slot.EndAt) with
    | none => .error ⟨500, "failed to get reservation_slots: "⟩
    | some row =>
      let count := row.Slot
      if count < 1 then .error ⟨400, fullSlotMessage req⟩ else checkSlots f tx req rest (i + 1)

/-- The `UPDATE reservation_slots SET slot = slot - 1 WHERE start_at >= ? AND end_at <= ?`.
MySQL refuses the statement when `slot - 1` leaves the range of BIGINT. -/
def updateSlots (req : ReserveLivestreamRequest) (rows : List ReservationSlotModel) :
    Option (List ReservationSlotModel) :=
  if rows.any (fun r => isCandidate req r && decide (r.Slot - 1 < int64Min)) then none
  else some (rows.map (fun r => if isCandidate req r then { r with Slot := r.Slot - 1 } else r))

/-- The loop of lines 160-167: one `INSERT INTO livestream_tags` per element of `req.Tags`, from
iteration `i` on. -/
def insertTags (f : ReserveFaults) (livestreamID : Int) : List Int → Nat → DB → Except HTTPError DB
  | [], _, tx => .ok tx
  | tagID :: rest, i, tx =>
    if f.insertTag i then .error ⟨500, "failed to insert livestream tag: "⟩ else
    insertTags f livestreamID rest (i + 1)
      { tx with
        livestream_tags := tx.livestream_tags ++
          [{ ID := tx.livestreamTagsNextID, LivestreamID := livestreamID, TagID := tagID }]
        livestreamTagsNextID := tx.livestreamTagsNextID + 1 }

/-- The `livestreamModel` of lines 133-141 after line 157 has set its `ID` to the id that the
`INSERT INTO livestreams` generated; the row that this `INSERT` adds, the columns it does not
name taking their defaults. -/
def newLivestreamModel (userID : Int) (req : ReserveLivestreamRequest) (tx : DB) :
    LivestreamModel :=
  { ID := tx.livestreamsNextID, UserID := userID, Title := req.Title,
    Description := req.Description, PlaylistUrl := req.PlaylistUrl,
    ThumbnailUrl := req.ThumbnailUrl, StartAt := req.StartAt, EndAt := req.EndAt,
    Tip := tx.tipDefault, ReactionsCount := tx.reactionsCountDefault }

/-- The body of `reserveLivestreamHandler` from the range check to the call of
`fillLivestreamResponse` (lines 103-172), run on the transaction's copy `tx` of the database:
the response object and the copy to commit, or the error to return. -/
def reserveTx (fillUser : DB → UserModel → Except String User) (f : ReserveFaults)
    (userID : Int) (req : ReserveLivestreamRequest) (tx : DB) : Except HTTPError (Livestream × DB) :=
  if badTimeRange req then .error ⟨400, "bad reservation time range"⟩ else
  if f.selectSlots then .error ⟨500, "failed to get reservation_slots: "⟩ else
  let slots := selectSlotsForUpdate req tx
  match checkSlots f tx req slots 0 with
  | .error e => .error e
  | .ok () =>
    if f.updateSlots then .error ⟨500, "failed to update reservation_slot: "⟩ else
    match updateSlots req tx.reservation_slots with
    | none => .error ⟨500, "failed to update reservation_slot: "⟩
    | some rows =>
      let tx1 := { tx with reservation_slots := rows }
      if f.insertLivestream then .error ⟨500, "failed to insert livestream: "⟩ else
      if f.lastInsertId then .error ⟨500, "failed to get last inserted livestream id: "⟩ else
      let livestreamID := tx1.livestreamsNextID
      let livestreamModel : LivestreamModel := newLivestreamModel userID req tx1
      let tx2 := { tx1 with
        livestreams := tx1.livestreams ++ [livestreamModel]
        livestreamsNextID := tx1.livestreamsNextID + 1 }
      match insertTags f livestreamID req.Tags 0 tx2 with
      | .error e => .error e
      | .ok tx3 =>
        match fillLivestreamResponse fillUser f.fill tx3 livestreamModel with
        | .error _ => .error ⟨500, "failed to fill livestream: "⟩
        | .ok livestream => .ok (livestream, tx3)

/-- `reserveLivestreamHandler`: the response and the database it leaves.  `sess` is the outcome
of the session check, `body` the outcome of `json.NewDecoder(...).Decode(&req)`: an error, or the
pointer `req`, `none` being nil. -/
def reserveLivestreamHandler (fillUser : DB → UserModel → Except String User) (f : ReserveFaults)
    (sess : Session) (body : Except Unit (Option ReserveLivestreamRequest)) (db : DB) :
    Response Livestream × DB :=
  match sess with
  | .error e => (.httpError e, db)
  | .ok userID =>
    match body with
    | .error _ => (.httpError ⟨400, "failed to decode the request body as json"⟩, db)
    | .ok reqPtr =>
      if f.beginTx then (.httpError ⟨500, "failed to begin transaction: "⟩, db) else
      match reqPtr with
      | none => (.nilPanic, db)
      | some req =>
        match reserveTx fillUser f userID req db with
        | .error e => (.httpError e, db)
        | .ok (livestream, tx) =>
          if f.commit then (.httpError ⟨500, "failed to commit: "⟩, db)
          else (.json 201 livestream, tx)

/-! ## enterLivestreamHandler and exitLivestreamHandler -/

/-- Fault flags of the database calls of `enterLivestreamHandler` and `exitLivestreamHandler`. -/
structure ViewerFaults where
  beginTx : Bool := false
  exec : Bool := false
  commit : Bool := false

/-- `enterLivestreamHandler`.  `livestreamID` is the outcome of
`strconv.Atoi(c.Param("livestream_id"))`, `now` the value of `time.Now().Unix()`. -/
def enterLivestreamHandler (f : ViewerFaults) (sess : Session) (livestreamID : Except Unit Int)
    (now : Int) (db : DB) : Response Unit × DB :=
  match sess with
  | .error e => (.httpError e, db)
  | .ok userID =>
    match livestreamID with
    | .error _ => (.httpError ⟨400, "livestream_id must be integer"⟩, db)
    | .ok livestreamID =>
      if f.beginTx then (.httpError ⟨500, "failed to begin transaction: "⟩, db) else
      let viewer : LivestreamViewerModel :=
        { UserID := userID, LivestreamID := livestreamID, CreatedAt := now }
      if f.exec then (.httpError ⟨500, "failed to insert livestream_view_history: "⟩, db) else
      let tx := { db with
        livestream_viewers_history := db.livestream_viewers_history ++ [viewer] }
      if f.commit then (.httpError ⟨500, "failed to commit: "⟩, db) else
      (.noContent 200, tx)

/-- `exitLivestreamHandler`.  `livestreamID` is the outcome of
`strconv.Atoi(c.Param("livestream_id"))`. -/
def exitLivestreamHandler (f : ViewerFaults) (sess : Session) (livestreamID : Except Unit Int)
    (db : DB) : Response Unit × DB :=
  match sess with
  | .error e => (.httpError e, db)
  | .ok userID =>
    match livestreamID with
    | .error _ => (.httpError ⟨400, "livestream_id in path must be integer"⟩, db)
    | .ok livestreamID =>
      if f.beginTx then (.httpError ⟨500, "failed to begin transaction: "⟩, db) else
      if f.exec then (.httpError ⟨500, "failed to delete livestream_view_history: "⟩, db) else
      -- DELETE FROM livestream_viewers_history WHERE user_id = ? AND livestream_id = ?
      let tx := { db with
        livestream_viewers_history := db.livestream_viewers_history.filter
          (fun v => !(v.UserID == userID && v.LivestreamID == livestreamID)) }
      if f.commit then (.httpError ⟨500, "failed to commit: "⟩, db) else
      (.noContent 200, tx)

/-- The user `userID` enters the livestream `livestreamID` once per element of `calls`, each
call with its faults and its clock reading. -/
def runEnters (userID livestreamID : Int) : List (ViewerFaults × Int) → DB → DB
  | [], db => db
  | c :: cs, db =>
    runEnters userID livestreamID cs
      (enterLivestreamHandler c.1 (.ok userID) (.ok livestreamID) c.2 db).2

/-! ## Go maps -/

/-- A Go `map`: a list of key-value pairs with at most one pair per key when built with
`mapSet`.  The order of the pairs stands for the order of one `range` over the map, which Go
leaves unspecified. -/
abbrev GoMap (κ ν : Type) := List (κ × ν)

/-- The lookup `v, ok := m[k]`. -/
def mapGet? {κ ν : Type} [DecidableEq κ] : GoMap κ ν → κ → Option ν
  | [], _ => none
  | (k', v) :: rest, k => if k' = k then some v else mapGet? rest k

/-- The assignment `m[k] = v`. -/
def mapSet {κ ν : Type} [DecidableEq κ] : GoMap κ ν → κ → ν → GoMap κ ν
  | [], k, v => [(k, v)]
  | (k', v') :: rest, k, v => if k' = k then (k, v) :: rest else (k', v') :: mapSet rest k v

/-! ## searchLivestreamsHandler -/

/-- Fault flags of the database calls of `searchLivestreamsHandler`. -/
structure SearchFaults where
  beginTx : Bool := false
  getTag : Bool := false
  selectKeyTagged : Bool := false
  selectLivestreams : Bool := false
  selectLivestreamTags : Bool := false
  selectTags : Bool := false
  selectUsers : Bool := false
  selectThemes : Bool := false
  selectIcons : Bool := false
  commit : Bool := false

/-- The clause `ORDER BY id DESC` on rows of `livestreams`. -/
def orderByIDDesc (rows : List LivestreamModel) : List LivestreamModel :=
  rows.insertionSort (fun a b => b.ID ≤ a.ID)

/-- Lines 191-227 of `searchLivestreamsHandler`: the rows of `livestreams` that the search
selects.  `keyTagName` is the query parameter `tag`; `limit` is `none` when the query parameter
`limit` is empty and the outcome of `strconv.Atoi` on it otherwise. -/
def searchLivestreamModels (f : SearchFaults) (keyTagName : String)
    (limit : Option (Except Unit Int)) (tx : DB) : Except HTTPError (List LivestreamModel) :=
  if keyTagName ≠ "" then
    if f.getTag then .error ⟨500, "failed to get tag: "⟩ else
    match tx.tags.find? (fun t => t.Name == keyTagName) with
    | none => .error ⟨500, "failed to get tag: "⟩
    | some tag =>
      let tagID := tag.ID
      if f.selectKeyTagged then .error ⟨500, "failed to get keyTaggedLivestreamIDs: "⟩ else
      let keyTaggedLivestreamIDs : List Int :=
        ((tx.livestream_tags.filter (fun t => t.TagID == tagID)).map
          (fun t => t.LivestreamID)).insertionSort (fun a b => b ≤ a)
      if 0 < keyTaggedLivestreamIDs.length then
        if f.selectLivestreams then .error ⟨500, "failed to get livestreams: "⟩ else
        .ok (orderByIDDesc
          (tx.livestreams.filter (fun m => keyTaggedLivestreamIDs.contains m.ID)))
      else .ok []
  else
    match limit with
    | none =>
      if f.selectLivestreams then .error ⟨500, "failed to get livestreams: "⟩ else
      .ok (orderByIDDesc tx.livestreams)
    | some (.error _) => .error ⟨400, "limit query parameter must be integer"⟩
    | some (.ok limit) =>
      if f.selectLivestreams then .error ⟨500, "failed to get livestreams: "⟩ else
      -- MySQL refuses `LIMIT` with a negative number
      if limit < 0 then .error ⟨500, "failed to get livestreams: "⟩ else
      .ok ((orderByIDDesc tx.livestreams).take limit.toNat)

/-- Lines 246-249: `tagsByLivestreamID`, the tag ids of the fetched `livestream_tags` rows
grouped by livestream id. -/
def groupTagIDs (livestreamTags : List LivestreamTagModel) : GoMap Int (List Int) :=
  livestreamTags.foldl
    (fun m tag => mapSet m tag.LivestreamID
      ((mapGet? m tag.LivestreamID).getD [] ++ [tag.TagID])) []

/-- Lines 252-255: `tagIDs`, the lists of `tagsByLivestreamID` one after the other. -/
def allTagIDs (tagsByLivestreamID : GoMap Int (List Int)) : List Int :=
  tagsByLivestreamID.foldl (fun tagIDs kv => tagIDs ++ kv.2) []

/-- Lines 269-272: `tagsByID`. -/
def indexTags (tags : List Tag) : GoMap Int Tag :=
  tags.foldl (fun m tag => mapSet m tag.ID tag) []

/-- Lines 307-310: `themesByUserID`. -/
def groupThemes (themes : List ThemeModel) : GoMap Int (List ThemeModel) :=
  themes.foldl
    (fun m theme => mapSet m theme.UserID ((mapGet? m theme.UserID).getD [] ++ [theme])) []

/-- Lines 324-327: `iconsByUserID`. -/
def indexIcons (icons : List IconModel) : GoMap Int IconModel :=
  icons.foldl (fun m icon => mapSet m icon.UserID icon) []

/-- The hash of the fallback icon (line 339). -/
def defaultIconHash : String :=
  "d9f8294e9d895f81ce62e73dc7d5dff862a4fa40bd4e0fecf53f7526a8edcac0"

/-- Lines 331-351: the `owner` built for one row of `users`. -/
def buildOwner (themesByUserID : GoMap Int (List ThemeModel)) (iconsByUserID : GoMap Int IconModel)
    (user : UserModel) : User :=
  let theme : Theme :=
    match mapGet? themesByUserID user.ID with
    | some (t :: _) => { ID := t.ID, DarkMode := t.DarkMode }
    | _ => { ID := 0, DarkMode := false }
  let iconHash : String :=
    match mapGet? iconsByUserID user.ID with
    | some icon => icon.IconHash
    | none => defaultIconHash
  { ID := user.ID, Name := user.Name, DisplayName := user.DisplayName,
    Description := user.Description, Theme := theme, IconHash := iconHash }

/-- Lines 329-354: `owners`. -/
def buildOwners (themesByUserID : GoMap Int (List ThemeModel))
    (iconsByUserID : GoMap Int IconModel) (users : List UserModel) : GoMap Int User :=
  users.foldl (fun m user => mapSet m user.ID (buildOwner themesByUserID iconsByUserID user)) []

/-- The zero value of `User`. -/
def zeroUser : User := ⟨0, "", "", "", ⟨0, false⟩, ""⟩

/-- The zero value of `Tag`. -/
def zeroTag : Tag := ⟨0, ""⟩

/-- Lines 359-377: the response entry of one selected row. -/
def buildLivestream (tagsByLivestreamID : GoMap Int (List Int)) (tagsByID : GoMap Int Tag)
    (owners : GoMap Int User) (livestreamModel : LivestreamModel) : Livestream :=
  let owner := (mapGet? owners livestreamModel.UserID).getD zeroUser
  let tagIDs := (mapGet? tagsByLivestreamID livestreamModel.ID).getD []
  let livestreamTags := tagIDs.map (fun tagID => (mapGet? tagsByID tagID).getD zeroTag)
  { ID := livestreamModel.ID, Owner := owner, Title := livestreamModel.Title,
    Description := livestreamModel.Description, PlaylistUrl := livestreamModel.PlaylistUrl,
    ThumbnailUrl := livestreamModel.ThumbnailUrl, Tags := livestreamTags,
    StartAt := livestreamModel.StartAt, EndAt := livestreamModel.EndAt }

/-- Lines 229-378 of `searchLivestreamsHandler`: the batched assembly of the response from the
selected rows.  `sqlx.In` fails on an empty list of arguments.  (The map `usersByID` of lines
290-293 is filled and never read; it is left out.) -/
def searchAssemble (f : SearchFaults) (tx : DB) (livestreamModels : List LivestreamModel) :
    Except HTTPError (List Livestream) :=
  let livestreamIDs := livestreamModels.map (fun m => m.ID)
  if livestreamIDs.isEmpty then .error ⟨500, "failed to construct IN query for tags: "⟩ else
  if f.selectLivestreamTags then .error ⟨500, "failed to get livestream tags: "⟩ else
  let livestreamTags := tx.livestream_tags.filter (fun t => livestreamIDs.contains t.LivestreamID)
  let tagsByLivestreamID := groupTagIDs livestreamTags
  let tagIDs := allTagIDs tagsByLivestreamID
  if 0 < tagIDs.length && f.selectTags then .error ⟨500, "failed to get tags: "⟩ else
  let tags : List Tag :=
    if 0 < tagIDs.length then tx.tags.filter (fun t => tagIDs.contains t.ID) else []
  let tagsByID := indexTags tags
  let userIDs := livestreamModels.map (fun m => m.UserID)
  if userIDs.isEmpty then .error ⟨500, "failed to construct IN query for users: "⟩ else
  if f.selectUsers then .error ⟨500, "failed to get users: "⟩ else
  let users := tx.users.filter (fun u => userIDs.contains u.ID)
  if f.selectThemes then .error ⟨500, "failed to get themes: "⟩ else
  let themes := tx.themes.filter (fun t => userIDs.contains t.UserID)
  let themesByUserID := groupThemes themes
  if f.selectIcons then .error ⟨500, "failed to get icons: "⟩ else
  let icons := tx.icons.filter (fun i => userIDs.contains i.UserID)
  let iconsByUserID := indexIcons icons
  let owners := buildOwners themesByUserID iconsByUserID users
  .ok (livestreamModels.map (buildLivestream tagsByLivestreamID tagsByID owners))

/-- `searchLivestreamsHandler`; it reads the database and changes nothing. -/
def searchLivestreamsHandler (f : SearchFaults) (keyTagName : String)
    (limit : Option (Except Unit Int)) (db : DB) : Response (List Livestream) :=
  if f.beginTx then .httpError ⟨500, "failed to begin transaction: "⟩ else
  match searchLivestreamModels f keyTagName limit db with
  | .error e => .httpError e
  | .ok livestreamModels =>
    match searchAssemble f db livestreamModels with
    | .error e => .httpError e
    | .ok livestreams =>
      if f.commit then .httpError ⟨500, "failed to commit: "⟩ else .json 200 livestreams

/-- The response entry that `searchAssemble` builds for the row `m` out of the selected rows
`livestreamModels` when none of its database calls fails. -/
def batchedLivestream (tx : DB) (livestreamModels : List LivestreamModel) (m : LivestreamModel) :
    Livestream :=
  let livestreamIDs := livestreamModels.map (fun m => m.ID)
  let livestreamTags := tx.livestream_tags.filter (fun t => livestreamIDs.contains t.LivestreamID)
  let tagsByLivestreamID := groupTagIDs livestreamTags
  let tagIDs := allTagIDs tagsByLivestreamID
  let tags : List Tag :=
    if 0 < tagIDs.length then tx.tags.filter (fun t => tagIDs.contains t.ID) else []
  let userIDs := livestreamModels.map (fun m => m.UserID)
  let users := tx.users.filter (fun u => userIDs.contains u.ID)
  let themes := tx.themes.filter (fun t => userIDs.contains t.UserID)
  let icons := tx.icons.filter (fun i => userIDs.contains i.UserID)
  buildLivestream tagsByLivestreamID (indexTags tags)
    (buildOwners (groupThemes themes) (indexIcons icons) users) m

/-- The tag ids that `fillLivestreamResponse` reads for the livestream `livestreamID`:
`SELECT tag_id FROM livestream_tags WHERE livestream_id = ?`. -/
def tagIDsOf (tx : DB) (livestreamID : Int) : List Int :=
  (tx.livestream_tags.filter (fun t => t.LivestreamID == livestreamID)).map (fun t => t.TagID)

/-! ## getLivecommentReportsHandler -/

/-- Fault flags of the database calls of `getLivecommentReportsHandler`. -/
structure ReportsFaults where
  beginTx : Bool := false
  getLivestream : Bool := false
  selectReports : Bool := false
  commit : Bool := false

/-- The loop of lines 618-625: `fillReport` on each row, stopping at the first error. -/
def fillReports {ρ : Type} (fillReport : DB → LivecommentReportModel → Except String ρ)
    (tx : DB) : List LivecommentReportModel → Except HTTPError (List ρ)
  | [] => .ok []
  | reportModel :: rest =>
    match fillReport tx reportModel with
    | .error _ => .error ⟨500, "failed to fill livecomment report: "⟩
    | .ok report =>
      match fillReports fillReport tx rest with
      | .error e => .error e
      | .ok reports => .ok (report :: reports)

/-- `getLivecommentReportsHandler`; it reads the database and changes nothing.  `fillReport` is
`fillLivecommentReportResponse`, which this source file calls and does not define, and `ρ` the
type `LivecommentReport` of its result; `livestreamID` is the outcome of
`strconv.Atoi(c.Param("livestream_id"))`. -/
def getLivecommentReportsHandler {ρ : Type}
    (fillReport : DB → LivecommentReportModel → Except String ρ) (f : ReportsFaults)
    (sess : Session) (livestreamID : Except Unit Int) (db : DB) : Response (List ρ) :=
  match sess with
  | .error e => .httpError e
  | .ok userID =>
    match livestreamID with
    | .error _ => .httpError ⟨400, "livestream_id in path must be integer"⟩
    | .ok livestreamID =>
      if f.beginTx then .httpError ⟨500, "failed to begin transaction: "⟩ else
      if f.getLivestream then .httpError ⟨500, "failed to get livestream: "⟩ else
      match db.livestreams.find? (fun m => m.ID == livestreamID) with
      | none => .httpError ⟨500, "failed to get livestream: "⟩
      | some livestreamModel =>
        if livestreamModel.UserID ≠ userID then
          .httpError ⟨403, "can\x27t get other streamer\x27s livecomment reports"⟩
        else
        if f.selectReports then .httpError ⟨500, "failed to get livecomment reports: "⟩ else
        let reportModels := db.livecomment_reports.filter (fun r => r.LivestreamID == livestreamID)
        match fillReports fillReport db reportModels with
        | .error e => .httpError e
        | .ok reports =>
          if f.commit then .httpError ⟨500, "failed to commit: "⟩ else .json 200 reports

/-- A sequence of calls of `reserveLivestreamHandler`, one after the other: each call has its
faults, its session and its body. -/
def runReservations (fillUser : DB → UserModel → Except String User) :
    List (ReserveFaults × Session × Except Unit (Option ReserveLivestreamRequest)) → DB → DB
  | [], db => db
  | c :: cs, db =>
    runReservations fillUser cs (reserveLivestreamHandler fillUser c.1 c.2.1 c.2.2 db).2

/-! ## Predicates on database states -/

/-- Every row of `reservation_slots` has a slot count of at least 0. -/
def SlotsNonneg (db : DB) : Prop := ∀ r ∈ db.reservation_slots, 0 ≤ r.Slot

/-- No two rows of `reservation_slots` have the same time window `(start_at, end_at)`. -/
def WindowsDistinct (db : DB) : Prop :=
  db.reservation_slots.Pairwise (fun a b => ¬ (a.StartAt = b.StartAt ∧ a.EndAt = b.EndAt))

/-- The rows that the loop of `INSERT INTO livestream_tags` adds for the tag ids `tags`, the
first of them numbered `next`. -/
def tagRows (livestreamID : Int) : Int → List Int → List LivestreamTagModel
  | _, [] => []
  | next, tagID :: rest =>
    { ID := next, LivestreamID := livestreamID, TagID := tagID } ::
      tagRows livestreamID (next + 1) rest

/-! ## Sample data -/

/-- Modelled from the spec: `fillUserResponse` is called by `fillLivestreamResponse` and defined
outside this source file.  The spec has it join the owner with "theme, icon"; this instance does
so the way lines 330-351 do for the batched search: the first `themes` row of the user (the zero
theme when there is none) and the hash of the user's last `icons` row (the fallback hash when
there is none).  The theorems below hold for every `fillUser`; this one is the instance at which
the concrete runs are evaluated. -/
def fillUserResponse (tx : DB) (userModel : UserModel) : Except String User :=
  let theme : Theme :=
    match tx.themes.find? (fun t => t.UserID == userModel.ID) with
    | some t => { ID := t.ID, DarkMode := t.DarkMode }
    | none => { ID := 0, DarkMode := false }
  let iconHash : String :=
    match (tx.icons.filter (fun i => i.UserID == userModel.ID)).getLast? with
    | some i => i.IconHash
    | none => defaultIconHash
  .ok { ID := userModel.ID, Name := userModel.Name, DisplayName := userModel.DisplayName,
        Description := userModel.Description, Theme := theme, IconHash := iconHash }

/-- A database with one user and no other row. -/
def sampleDB : DB :=
  { reservation_slots := [], livestreams := [], livestream_tags := [],
    tags := [⟨1, "live"⟩, ⟨2, "music"⟩],
    users := [⟨7, "alice", "Alice", "streamer"⟩],
    themes := [⟨1, 7, true⟩], icons := [],
    livestream_viewers_history := [], livecomment_reports := [],
    livestreamsNextID := 1, livestreamTagsNextID := 1, tipDefault := 0,
    reactionsCountDefault := 0 }

/-- The first hour of the term, 2023-11-25 01:00 to 02:00 UTC, with the tags 2 and 1. -/
def firstHourReq : ReserveLivestreamRequest :=
  { Tags := [2, 1], Title := "t", Description := "d", PlaylistUrl := "p", ThumbnailUrl := "i",
    StartAt := 1700874000, EndAt := 1700877600 }

/-- Two rows for the window of `firstHourReq`: the first with one place left, the second full. -/
def twinSlotsDB : DB :=
  { sampleDB with
    reservation_slots := [⟨1, 1, 1700874000, 1700877600⟩, ⟨2, 0, 1700874000, 1700877600⟩] }

/-- One row for the window of `firstHourReq`, with two places left, and a row for the next
hour. -/
def hourlySlotsDB : DB :=
  { sampleDB with
    reservation_slots := [⟨1, 2, 1700874000, 1700877600⟩, ⟨2, 5, 1700877600, 1700881200⟩] }

/-- One row for the window of `firstHourReq`, full. -/
def fullSlotDB : DB :=
  { sampleDB with reservation_slots := [⟨1, 0, 1700874000, 1700877600⟩] }

/-- A request that starts one hour before the term and ends one hour after its start. -/
def earlyReq : ReserveLivestreamRequest :=
  { Tags := [], Title := "t", Description := "d", PlaylistUrl := "p", ThumbnailUrl := "i",
    StartAt := 1700870400, EndAt := 1700877600 }

/-- The state that the reservation of `firstHourReq` by user 7 leaves from `hourlySlotsDB`
apart from the slot counts: one livestream, tagged 2 and then 1. -/
def taggedDB : DB :=
  { sampleDB with
    livestreams := [⟨1, 7, "t", "d", "p", "i", 1700874000, 1700877600, 0, 0⟩]
    livestream_tags := [⟨1, 1, 2⟩, ⟨2, 1, 1⟩]
    livestreamsNextID := 2, livestreamTagsNextID := 3 }

/-- The database `taggedDB` with two reports, one on livestream 1 and one on livestream 2. -/
def reportedDB : DB :=
  { taggedDB with livecomment_reports := [⟨1, 8, 1, 5, 100⟩, ⟨2, 8, 2, 6, 110⟩] }

/-! ## The request body of reserveLivestreamHandler -/

/-- What `json.NewDecoder(c.Request().Body).Decode(&req)` reads from the request body, by the
cases of package `encoding/json` for a destination of type `*ReserveLivestreamRequest`:
no JSON value can be read (empty body, malformed JSON); the value `null`; a JSON object,
given with what the decoder makes of its members (the struct it fills, or the error of a member
whose type does not fit its field); any other JSON value (boolean, number, string, array). -/
inductive RequestBody where
  | malformed
  | null
  | object (fields : Except Unit ReserveLivestreamRequest)
  | otherValue
  deriving DecidableEq

/-- The outcome of `Decode(&req)` with `var req *ReserveLivestreamRequest`: an error, or the
pointer `req`.  The value `null` is decoded without error and sets the pointer to nil; an
object makes the decoder allocate the struct. -/
def decodeBody : RequestBody → Except Unit (Option ReserveLivestreamRequest)
  | .malformed => .error ()
  | .null => .ok none
  | .object (.ok req) => .ok (some req)
  | .object (.error _) => .error ()
  | .otherValue => .error ()

/-- None of the database calls of `reserveLivestreamHandler` fails. -/
def ReserveFaults.AllSucceed (f : ReserveFaults) : Prop :=
  f.beginTx = false ∧ f.selectSlots = false ∧ (∀ i, f.getCount i = false) ∧
  f.updateSlots = false ∧ f.insertLivestream = false ∧ f.lastInsertId = false ∧
  (∀ i, f.insertTag i = false) ∧ f.fill.getOwner = false ∧ f.fill.selectTagIDs = false ∧
  f.fill.selectTags = false ∧ f.commit = false

/-- The database after the two kinds of `INSERT` of `reserveLivestreamHandler` and nothing else:
`db` with the new `livestreams` row and one `livestream_tags` row per tag of the request. -/
def afterInserts (userID : Int) (req : ReserveLivestreamRequest) (db : DB) : DB :=
  { db with
    livestreams := db.livestreams ++ [newLivestreamModel userID req db]
    livestreamsNextID := db.livestreamsNextID + 1
    livestream_tags := db.livestream_tags ++
      tagRows db.livestreamsNextID db.livestreamTagsNextID req.Tags
    livestreamTagsNextID := db.livestreamTagsNextID + req.Tags.length }

/-- A request inside the window of the row of `fullSlotDB`, with its end before its start. -/
def reversedReq : ReserveLivestreamRequest :=
  { Tags := [1], Title := "t", Description := "d", PlaylistUrl := "p", ThumbnailUrl := "i",
    StartAt := 1700877000, EndAt := 1700875000 }

/-! # Theorems -/

/-! ## Lemmas on Go maps -/

theorem mapGet?_mapSet {κ ν : Type} [DecidableEq κ] (m : GoMap κ ν) (k k' : κ) (v : ν) :
    mapGet? (mapSet m k v) k' = if k = k' then some v else mapGet? m k' := by
  induction m with
  | nil => simp [mapSet, mapGet?]
  | cons p rest ih =>
    obtain ⟨k0, v0⟩ := p
    by_cases h0 : k0 = k
    · subst h0
      by_cases h1 : k0 = k' <;> simp [mapSet, mapGet?, h1]
    · by_cases h1 : k0 = k'
      · subst h1
        have : ¬ k = k0 := fun h => h0 h.symm
        simp [mapSet, mapGet?, h0, this]
      · simp [mapSet, mapGet?, h0, h1, ih]

/-- A map filled by `m[key x] = val x` for `x` over `xs`: the entry of `k` comes from the last
`x` with `key x = k`. -/
theorem foldl_mapSet_get {α κ ν : Type} [DecidableEq κ] (key : α → κ) (val : α → ν)
    (xs : List α) (acc : GoMap κ ν) (k : κ) :
    mapGet? (xs.foldl (fun m x => mapSet m (key x) (val x)) acc) k =
      match (xs.filter (fun x => decide (key x = k))).getLast? with
      | some x => some (val x)
      | none => mapGet? acc k := by
  induction xs using List.reverseRecOn with
  | nil => simp
  | append_singleton xs x ih =>
    rw [List.foldl_append]
    simp only [List.foldl_cons, List.foldl_nil, mapGet?_mapSet, List.filter_append]
    by_cases hx : key x = k
    · simp [hx]
    · simp [hx, ih]

/-- A map filled by `m[key x] = append(m[key x], val x)` for `x` over `xs`: the entry of `k`
lists the `val x` with `key x = k`, in the order of `xs`. -/
theorem foldl_group_get {α κ ν : Type} [DecidableEq κ] (key : α → κ) (val : α → ν)
    (xs : List α) (acc : GoMap κ (List ν)) (k : κ) :
    (mapGet? (xs.foldl
        (fun m x => mapSet m (key x) ((mapGet? m (key x)).getD [] ++ [val x])) acc) k).getD [] =
      (mapGet? acc k).getD [] ++ (xs.filter (fun x => decide (key x = k))).map val := by
  induction xs using List.reverseRecOn with
  | nil => simp
  | append_singleton xs x ih =>
    rw [List.foldl_append]
    simp only [List.foldl_cons, List.foldl_nil, mapGet?_mapSet, List.filter_append,
      List.map_append]
    by_cases hx : key x = k
    · subst hx
      simp [ih, List.append_assoc]
    · simp [hx, ih]

theorem mem_mapSet_group {κ ν : Type} [DecidableEq κ] (m : GoMap κ (List ν)) (k : κ) (a x : ν)
    (h : x = a ∨ ∃ kv ∈ m, x ∈ kv.2) :
    ∃ kv ∈ mapSet m k ((mapGet? m k).getD [] ++ [a]), x ∈ kv.2 := by
  induction m with
  | nil =>
    rcases h with rfl | ⟨kv, hkv, -⟩
    · exact ⟨(k, [x]), by simp [mapSet, mapGet?], by simp⟩
    · cases hkv
  | cons p rest ih =>
    obtain ⟨k0, v0⟩ := p
    by_cases h0 : k0 = k
    · subst h0
      simp only [mapSet, mapGet?, if_true, Option.getD_some]
      rcases h with rfl | ⟨kv, hkv, hx⟩
      · exact ⟨_, List.mem_cons_self _ _, by simp⟩
      · rcases List.mem_cons.1 hkv with rfl | hkv'
        · exact ⟨_, List.mem_cons_self _ _, by simp [hx]⟩
        · exact ⟨kv, List.mem_cons_of_mem _ hkv', hx⟩
    · simp only [mapSet, mapGet?, h0, if_false]
      rcases h with rfl | ⟨kv, hkv, hx⟩
      · obtain ⟨kv, hkv, hx⟩ := ih (Or.inl rfl)
        exact ⟨kv, List.mem_cons_of_mem _ hkv, hx⟩
      · rcases List.mem_cons.1 hkv with rfl | hkv'
        · exact ⟨_, List.mem_cons_self _ _, hx⟩
        · obtain ⟨kv', hkv'', hx'⟩ := ih (Or.inr ⟨kv, hkv', hx⟩)
          exact ⟨kv', List.mem_cons_of_mem _ hkv'', hx'⟩

theorem mem_foldl_group {α κ ν : Type} [DecidableEq κ] (key : α → κ) (val : α → ν)
    (xs : List α) (acc : GoMap κ (List ν)) (x : ν)
    (h : (∃ a ∈ xs, val a = x) ∨ ∃ kv ∈ acc, x ∈ kv.2) :
    ∃ kv ∈ xs.foldl
        (fun m x => mapSet m (key x) ((mapGet? m (key x)).getD [] ++ [val x])) acc,
      x ∈ kv.2 := by
  induction xs generalizing acc with
  | nil =>
    rcases h with ⟨a, ha, -⟩ | h
    · cases ha
    · exact h
  | cons y ys ih =>
    simp only [List.foldl_cons]
    apply ih
    rcases h with ⟨a, ha, hax⟩ | h
    · rcases List.mem_cons.1 ha with rfl | ha'
      · exact Or.inr (mem_mapSet_group _ _ _ _ (Or.inl hax.symm))
      · exact Or.inl ⟨a, ha', hax⟩
    · exact Or.inr (mem_mapSet_group _ _ _ _ (Or.inr h))

theorem mem_allTagIDs (m : GoMap Int (List Int)) (x : Int) :
    x ∈ allTagIDs m ↔ ∃ kv ∈ m, x ∈ kv.2 := by
  unfold allTagIDs
  have key : ∀ (acc : List Int), x ∈ m.foldl (fun tagIDs kv => tagIDs ++ kv.2) acc ↔
      x ∈ acc ∨ ∃ kv ∈ m, x ∈ kv.2 := by
    induction m with
    | nil => intro acc; simp
    | cons p rest ih =>
      intro acc
      simp only [List.foldl_cons, ih, List.mem_append, List.mem_cons, exists_eq_or_imp]
      tauto
  simpa using key []

/-! ## Lemmas on reserveLivestreamHandler -/

theorem find_same_window (rows : List ReservationSlotModel) (s : ReservationSlotModel)
    (hs : s ∈ rows) :
    ∃ row, rows.find? (fun r => r.StartAt == s.StartAt && r.EndAt == s.EndAt) = some row ∧
      row ∈ rows ∧ row.StartAt = s.StartAt ∧ row.EndAt = s.EndAt := by
  cases h : rows.find? (fun r => r.StartAt == s.StartAt && r.EndAt == s.EndAt) with
  | none =>
    rw [List.find?_eq_none] at h
    have := h s hs
    simp at this
  | some row =>
    have h1 := List.find?_some h
    have h2 := List.mem_of_find?_eq_some h
    simp at h1
    exact ⟨row, rfl, h2, h1.1, h1.2⟩

theorem same_window_eq (rows : List ReservationSlotModel)
    (hd : rows.Pairwise (fun a b => ¬ (a.StartAt = b.StartAt ∧ a.EndAt = b.EndAt)))
    (a b : ReservationSlotModel) (ha : a ∈ rows) (hb : b ∈ rows)
    (h1 : a.StartAt = b.StartAt) (h2 : a.EndAt = b.EndAt) : a = b := by
  induction rows with
  | nil => cases ha
  | cons x xs ih =>
    rw [List.pairwise_cons] at hd
    rcases List.mem_cons.1 ha with rfl | ha'
    · rcases List.mem_cons.1 hb with rfl | hb'
      · rfl
      · exact absurd ⟨h1, h2⟩ (hd.1 b hb')
    · rcases List.mem_cons.1 hb with rfl | hb'
      · exact absurd ⟨h1.symm, h2.symm⟩ (hd.1 a ha')
      · exact ih hd.2 ha' hb'

theorem checkSlots_ok (f : ReserveFaults) (tx : DB) (req : ReserveLivestreamRequest)
    (slots : List ReservationSlotModel) (i : Nat)
    (h : checkSlots f tx req slots i = .ok ()) :
    ∀ s ∈ slots, ∃ row, tx.reservation_slots.find?
      (fun r => r.StartAt == s.StartAt && r.EndAt == s.EndAt) = some row ∧ 1 ≤ row.Slot := by
  induction slots generalizing i with
  | nil => intro s hs; cases hs
  | cons x xs ih =>
    intro s hs
    unfold checkSlots at h
    split at h
    · cases h
    · split at h
      · cases h
      · rename_i row hrow
        simp only at h
        split at h
        · cases h
        · rename_i hlt
          rcases List.mem_cons.1 hs with rfl | hs'
          · exact ⟨row, hrow, by omega⟩
          · exact ih (i + 1) h s hs'

theorem insertTags_ok (f : ReserveFaults) (livestreamID : Int) (tags : List Int) (i : Nat)
    (tx tx' : DB) (h : insertTags f livestreamID tags i tx = .ok tx') :
    tx' = { tx with
      livestream_tags := tx.livestream_tags ++ tagRows livestreamID tx.livestreamTagsNextID tags
      livestreamTagsNextID := tx.livestreamTagsNextID + tags.length } := by
  induction tags generalizing i tx with
  | nil =>
    simp only [insertTags, Except.ok.injEq] at h
    subst h
    simp [tagRows]
  | cons t ts ih =>
    unfold insertTags at h
    split at h
    · cases h
    · have := ih (i + 1) _ h
      rw [this]
      simp [tagRows, List.append_assoc]
      omega

theorem tagRows_map (livestreamID next : Int) (tags : List Int) :
    (tagRows livestreamID next tags).map (fun r => (r.LivestreamID, r.TagID))
      = tags.map (fun t => (livestreamID, t)) := by
  induction tags generalizing next with
  | nil => rfl
  | cons t ts ih => simp [tagRows, ih]

/-- What a successful run of the transaction body has done. -/
theorem reserveTx_ok (fillUser : DB → UserModel → Except String User) (f : ReserveFaults)
    (userID : Int) (req : ReserveLivestreamRequest) (tx tx' : DB) (l : Livestream)
    (h : reserveTx fillUser f userID req tx = .ok (l, tx')) :
    badTimeRange req = false ∧
    checkSlots f tx req (selectSlotsForUpdate req tx) 0 = .ok () ∧
    ∃ rows, updateSlots req tx.reservation_slots = some rows ∧
      tx' = { tx with
        reservation_slots := rows
        livestreams := tx.livestreams ++ [newLivestreamModel userID req tx]
        livestreamsNextID := tx.livestreamsNextID + 1
        livestream_tags := tx.livestream_tags ++
          tagRows tx.livestreamsNextID tx.livestreamTagsNextID req.Tags
        livestreamTagsNextID := tx.livestreamTagsNextID + req.Tags.length } ∧
      fillLivestreamResponse fillUser f.fill tx' (newLivestreamModel userID req tx) = .ok l := by
  unfold reserveTx at h
  cases hb : badTimeRange req
  case true => simp [hb] at h
  cases hs : f.selectSlots
  case true => simp [hb, hs] at h
  cases hc : checkSlots f tx req (selectSlotsForUpdate req tx) 0
  case error e => simp [hb, hs, hc] at h
  cases hu : f.updateSlots
  case true => simp [hb, hs, hc, hu] at h
  cases hr : updateSlots req tx.reservation_slots
  case none => simp [hb, hs, hc, hu, hr] at h
  rename_i rows
  cases hi : f.insertLivestream
  case true => simp [hb, hs, hc, hu, hr, hi] at h
  cases hl : f.lastInsertId
  case true => simp [hb, hs, hc, hu, hr, hi, hl] at h
  simp only [hb, hs, hc, hu, hr, hi, hl, Bool.false_eq_true, if_false] at h
  split at h
  · cases h
  rename_i tx3 htags
  split at h
  · cases h
  rename_i l' hfill
  simp only [Except.ok.injEq, Prod.mk.injEq] at h
  obtain ⟨rfl, rfl⟩ := h
  have h3 := insertTags_ok _ _ _ _ _ _ htags
  simp only at h3
  subst h3
  exact ⟨rfl, rfl, rows, rfl, rfl, hfill⟩

theorem reserveHandler_created (fillUser : DB → UserModel → Except String User)
    (f : ReserveFaults) (sess : Session) (body : Except Unit (Option ReserveLivestreamRequest))
    (db : DB) (l : Livestream)
    (h : (reserveLivestreamHandler fillUser f sess body db).1 = .json 201 l) :
    ∃ userID req, sess = .ok userID ∧ body = .ok (some req) ∧
      reserveTx fillUser f userID req db =
        .ok (l, (reserveLivestreamHandler fillUser f sess body db).2) := by
  unfold reserveLivestreamHandler at h ⊢
  cases sess with
  | error e => simp at h
  | ok userID =>
    cases body with
    | error e => simp at h
    | ok reqPtr =>
      cases reqPtr with
      | none => cases hb : f.beginTx <;> simp [hb] at h
      | some req =>
        cases hb : f.beginTx
        · cases hr : reserveTx fillUser f userID req db with
          | error e => simp [hb, hr] at h
          | ok p =>
            obtain ⟨l', tx⟩ := p
            cases hc : f.commit
            · simp [hb, hr, hc] at h
              subst h
              exact ⟨userID, req, rfl, rfl, by simp [hr, hc, hb]⟩
            · simp [hb, hr, hc] at h
        · simp [hb] at h

theorem reserveHandler_state (fillUser : DB → UserModel → Except String User)
    (f : ReserveFaults) (sess : Session) (body : Except Unit (Option ReserveLivestreamRequest))
    (db : DB) :
    (reserveLivestreamHandler fillUser f sess body db).2 = db ∨
      ∃ l, (reserveLivestreamHandler fillUser f sess body db).1 = .json 201 l := by
  unfold reserveLivestreamHandler
  cases sess with
  | error e => simp
  | ok userID =>
    cases body with
    | error e => simp
    | ok reqPtr =>
      cases reqPtr with
      | none => cases f.beginTx <;> simp
      | some req =>
        cases f.beginTx
        · cases hr : reserveTx fillUser f userID req db with
          | error e => simp [hr]
          | ok p =>
            cases f.commit <;> simp [hr]
        · simp

theorem updateSlots_some (req : ReserveLivestreamRequest) (rows rows' : List ReservationSlotModel)
    (h : updateSlots req rows = some rows') :
    rows' = rows.map
      (fun r => if isCandidate req r then { r with Slot := r.Slot - 1 } else r) := by
  unfold updateSlots at h
  split at h
  · cases h
  · simpa using h.symm

/-- A successful reservation keeps both properties of the slot table. -/
theorem reserveTx_slots_inv (fillUser : DB → UserModel → Except String User) (f : ReserveFaults)
    (userID : Int) (req : ReserveLivestreamRequest) (tx tx' : DB) (l : Livestream)
    (h : reserveTx fillUser f userID req tx = .ok (l, tx'))
    (hnn : SlotsNonneg tx) (hd : WindowsDistinct tx) :
    SlotsNonneg tx' ∧ WindowsDistinct tx' := by
  obtain ⟨-, hcheck, rows, hrows, htx, -⟩ := reserveTx_ok _ _ _ _ _ _ _ h
  have hmap := updateSlots_some _ _ _ hrows
  subst htx
  subst hmap
  constructor
  · intro r hr
    simp only [List.mem_map] at hr
    obtain ⟨r0, hr0, rfl⟩ := hr
    by_cases hc : isCandidate req r0 = true
    · simp only [hc, if_true]
      have hsel : r0 ∈ selectSlotsForUpdate req tx := by
        simp [selectSlotsForUpdate, List.mem_filter, hr0, hc]
      obtain ⟨row, hfind, hge⟩ := checkSlots_ok _ _ _ _ _ hcheck r0 hsel
      obtain ⟨row', hfind', hmem, h1, h2⟩ := find_same_window tx.reservation_slots r0 hr0
      rw [hfind] at hfind'
      cases hfind'
      have : row = r0 := same_window_eq _ hd _ _ hmem hr0 h1 h2
      subst this
      show 0 ≤ row.Slot - 1
      omega
    · simp only [hc]
      exact hnn r0 hr0
  · unfold WindowsDistinct at hd ⊢
    simp only [List.pairwise_map]
    refine hd.imp ?_
    intro a b hab
    by_cases ha : isCandidate req a = true <;> by_cases hb : isCandidate req b = true <;>
      simpa [ha, hb] using hab

theorem reserveHandler_slots_inv (fillUser : DB → UserModel → Except String User)
    (f : ReserveFaults) (sess : Session) (body : Except Unit (Option ReserveLivestreamRequest))
    (db : DB) (hnn : SlotsNonneg db) (hd : WindowsDistinct db) :
    SlotsNonneg (reserveLivestreamHandler fillUser f sess body db).2 ∧
      WindowsDistinct (reserveLivestreamHandler fillUser f sess body db).2 := by
  rcases reserveHandler_state fillUser f sess body db with h | ⟨l, h⟩
  · rw [h]; exact ⟨hnn, hd⟩
  · obtain ⟨userID, req, -, -, htx⟩ := reserveHandler_created _ _ _ _ _ _ h
    exact reserveTx_slots_inv _ _ _ _ _ _ _ htx hnn hd

theorem runReservations_slots_inv (fillUser : DB → UserModel → Except String User)
    (calls : List (ReserveFaults × Session × Except Unit (Option ReserveLivestreamRequest)))
    (db : DB) (hnn : SlotsNonneg db) (hd : WindowsDistinct db) :
    SlotsNonneg (runReservations fillUser calls db) ∧
      WindowsDistinct (runReservations fillUser calls db) := by
  induction calls generalizing db with
  | nil => exact ⟨hnn, hd⟩
  | cons c cs ih =>
    have h := reserveHandler_slots_inv fillUser c.1 c.2.1 c.2.2 db hnn hd
    exact ih _ h.1 h.2

theorem checkSlots_full (f : ReserveFaults) (tx : DB) (req : ReserveLivestreamRequest)
    (hd : WindowsDistinct tx) (hg : ∀ i, f.getCount i = false)
    (slots : List ReservationSlotModel) (i : Nat)
    (hsub : ∀ s ∈ slots, s ∈ tx.reservation_slots)
    (hfull : ∃ s ∈ slots, s.Slot < 1) :
    checkSlots f tx req slots i = .error ⟨400, fullSlotMessage req⟩ := by
  induction slots generalizing i with
  | nil => obtain ⟨s, hs, -⟩ := hfull; cases hs
  | cons x xs ih =>
    have hx : x ∈ tx.reservation_slots := hsub x (List.mem_cons_self _ _)
    obtain ⟨row, hfind, hmem, h1, h2⟩ := find_same_window tx.reservation_slots x hx
    have hrow : row = x := same_window_eq _ hd _ _ hmem hx h1 h2
    subst hrow
    unfold checkSlots
    simp only [hg, hfind, Bool.false_eq_true, if_false]
    by_cases hlt : row.Slot < 1
    · simp [hlt]
    · simp only [hlt, if_false]
      apply ih
      · intro s hs; exact hsub s (List.mem_cons_of_mem _ hs)
      · obtain ⟨s, hs, hslt⟩ := hfull
        rcases List.mem_cons.1 hs with rfl | hs'
        · exact absurd hslt hlt
        · exact ⟨s, hs', hslt⟩

theorem fillLivestreamResponse_ok (fillUser : DB → UserModel → Except String User)
    (f : FillFaults) (tx : DB) (m : LivestreamModel) (l : Livestream)
    (h : fillLivestreamResponse fillUser f tx m = .ok l) :
    l.ID = m.ID ∧ l.Title = m.Title ∧ l.Description = m.Description ∧
      l.PlaylistUrl = m.PlaylistUrl ∧ l.ThumbnailUrl = m.ThumbnailUrl ∧
      l.StartAt = m.StartAt ∧ l.EndAt = m.EndAt ∧
      l.Tags = tx.tags.filter (fun t =>
        ((tx.livestream_tags.filter (fun r => r.LivestreamID == m.ID)).map
          (fun r => r.TagID)).contains t.ID) := by
  unfold fillLivestreamResponse at h
  cases h1 : f.getOwner
  case true => simp [h1] at h
  cases h2 : tx.users.find? (fun u => u.ID == m.UserID)
  case none => simp [h1, h2] at h
  rename_i ownerModel
  cases h3 : fillUser tx ownerModel
  case error e => simp [h1, h2, h3] at h
  rename_i owner
  cases h4 : f.selectTagIDs
  case true => simp [h1, h2, h3, h4] at h
  simp only [h1, h2, h3, h4, Bool.false_eq_true, if_false] at h
  split at h
  · cases h5 : f.selectTags
    case true => simp [h5] at h
    simp only [h5, Bool.false_eq_true, if_false, Except.ok.injEq] at h
    subst h
    simp
  · rename_i hlen
    simp only [Except.ok.injEq] at h
    subst h
    have hnil : (tx.livestream_tags.filter (fun r => r.LivestreamID == m.ID)).map
        (fun r => r.TagID) = [] := by
      apply List.eq_nil_of_length_eq_zero
      omega
    simp only [hnil]
    simp

/-! ## C1 -/

/-- C1, as stated, fails: with two rows for one time window, the first with one place left and
the second full, every slot count is at least 0, the reservation of that window is answered
201, and it leaves the second row with the slot count -1. -/
theorem reserve_twin_windows_slot_negative :
    (∀ r ∈ twinSlotsDB.reservation_slots, 0 ≤ r.Slot) ∧
    (reserveLivestreamHandler fillUserResponse {} (.ok 7) (.ok (some firstHourReq))
      twinSlotsDB).1.status = some 201 ∧
    (reserveLivestreamHandler fillUserResponse {} (.ok 7) (.ok (some firstHourReq))
      twinSlotsDB).2.reservation_slots
      = [⟨1, 0, 1700874000, 1700877600⟩, ⟨2, -1, 1700874000, 1700877600⟩] := by
  decide

/-- C1, amended: when no two rows of reservation_slots have the same time window and every slot
count is at least 0, the state left by one call of reserveLivestreamHandler (whatever the
faults, the session and the body, whether it answers 201 or an error) again has both
properties, and so has the state left by any sequence of calls. -/
theorem reserve_slots_never_negative (fillUser : DB → UserModel → Except String User)
    (db : DB) (hnn : SlotsNonneg db) (hd : WindowsDistinct db) :
    (∀ (f : ReserveFaults) (sess : Session)
        (body : Except Unit (Option ReserveLivestreamRequest)),
      SlotsNonneg (reserveLivestreamHandler fillUser f sess body db).2 ∧
        WindowsDistinct (reserveLivestreamHandler fillUser f sess body db).2) ∧
    (∀ calls : List (ReserveFaults × Session × Except Unit (Option ReserveLivestreamRequest)),
      SlotsNonneg (runReservations fillUser calls db) ∧
        WindowsDistinct (runReservations fillUser calls db)) :=
  ⟨fun f sess body => reserveHandler_slots_inv fillUser f sess body db hnn hd,
   fun calls => runReservations_slots_inv fillUser calls db hnn hd⟩

theorem reserve_slots_never_negative_witness :
    SlotsNonneg hourlySlotsDB ∧ WindowsDistinct hourlySlotsDB ∧
    SlotsNonneg (runReservations fillUserResponse
      [({}, .ok 7, .ok (some firstHourReq)), ({}, .ok 7, .ok (some firstHourReq)),
       ({}, .ok 7, .ok (some firstHourReq))] hourlySlotsDB) :=
  ⟨by unfold SlotsNonneg; decide, by unfold WindowsDistinct; decide,
   ((reserve_slots_never_negative fillUserResponse hourlySlotsDB
      (by unfold SlotsNonneg; decide) (by unfold WindowsDistinct; decide)).2 _).1⟩

/-! ## C2 -/

/-- C2, as stated, fails: with two rows for one time window, the first with one place left and
the second full, the request passes the range check, a candidate row has a slot count below 1,
and yet the handler answers 201, decrements both rows and inserts the livestream. -/
theorem reserve_twin_windows_overbooked :
    badTimeRange firstHourReq = false ∧
    (∃ r ∈ twinSlotsDB.reservation_slots, isCandidate firstHourReq r = true ∧ r.Slot < 1) ∧
    (reserveLivestreamHandler fillUserResponse {} (.ok 7) (.ok (some firstHourReq))
      twinSlotsDB).1.status = some 201 ∧
    (reserveLivestreamHandler fillUserResponse {} (.ok 7) (.ok (some firstHourReq))
      twinSlotsDB).2 ≠ twinSlotsDB ∧
    (reserveLivestreamHandler fillUserResponse {} (.ok 7) (.ok (some firstHourReq))
      twinSlotsDB).2.livestreams.length = 1 := by
  decide

/-- C2, amended: when no two rows of reservation_slots have the same time window, the request
passes the range check and some row with start_at >= req.StartAt and end_at <= req.EndAt has
slot < 1, then, the transaction having begun and the reads of the slots having succeeded,
reserveLivestreamHandler answers 400 and leaves the database unchanged. -/
theorem reserve_full_slot_rejected (fillUser : DB → UserModel → Except String User)
    (f : ReserveFaults) (userID : Int) (req : ReserveLivestreamRequest) (db : DB)
    (hd : WindowsDistinct db) (hrange : badTimeRange req = false)
    (hfull : ∃ r ∈ db.reservation_slots,
      (req.StartAt ≤ r.StartAt ∧ r.EndAt ≤ req.EndAt) ∧ r.Slot < 1)
    (hb : f.beginTx = false) (hs : f.selectSlots = false) (hg : ∀ i, f.getCount i = false) :
    reserveLivestreamHandler fillUser f (.ok userID) (.ok (some req)) db
      = (.httpError ⟨400, fullSlotMessage req⟩, db) := by
  have hcheck : checkSlots f db req (selectSlotsForUpdate req db) 0
      = .error ⟨400, fullSlotMessage req⟩ := by
    apply checkSlots_full f db req hd hg
    · intro s hs
      exact (List.mem_filter.1 hs).1
    · obtain ⟨r, hr, hc, hlt⟩ := hfull
      refine ⟨r, ?_, hlt⟩
      simp [selectSlotsForUpdate, List.mem_filter, hr, isCandidate, hc]
  simp [reserveLivestreamHandler, reserveTx, hb, hrange, hs, hcheck]

theorem reserve_full_slot_rejected_witness :
    reserveLivestreamHandler fillUserResponse {} (.ok 7) (.ok (some firstHourReq)) fullSlotDB
      = (.httpError ⟨400, fullSlotMessage firstHourReq⟩, fullSlotDB) :=
  reserve_full_slot_rejected fillUserResponse {} 7 firstHourReq fullSlotDB
    (by unfold WindowsDistinct; decide) (by decide)
    ⟨⟨1, 0, 1700874000, 1700877600⟩, by decide, by decide, by decide⟩
    rfl rfl (fun _ => rfl)

/-! ## C3 -/

/-- C3: when reserveLivestreamHandler answers 201, the slot table keeps its length and, row by
row, the id, start_at and end_at; a row with start_at >= req.StartAt and end_at <= req.EndAt
has its slot decreased by exactly 1 and is one of the rows that the SELECT ... FOR UPDATE
returned; every other row is unchanged and is not one of them; and the capacity check ran
over those rows and passed. -/
theorem reserve_created_decrements_candidates
    (fillUser : DB → UserModel → Except String User) (f : ReserveFaults) (userID : Int)
    (req : ReserveLivestreamRequest) (db : DB) (l : Livestream)
    (h : (reserveLivestreamHandler fillUser f (.ok userID) (.ok (some req)) db).1
      = .json 201 l) :
    (reserveLivestreamHandler fillUser f (.ok userID) (.ok (some req))
        db).2.reservation_slots.length = db.reservation_slots.length ∧
    (∀ (i : Nat) (r : ReservationSlotModel), db.reservation_slots[i]? = some r →
      ∃ r', (reserveLivestreamHandler fillUser f (.ok userID) (.ok (some req))
          db).2.reservation_slots[i]? = some r' ∧
        r'.ID = r.ID ∧ r'.StartAt = r.StartAt ∧ r'.EndAt = r.EndAt ∧
        ((req.StartAt ≤ r.StartAt ∧ r.EndAt ≤ req.EndAt) →
          r'.Slot = r.Slot - 1 ∧ r ∈ selectSlotsForUpdate req db) ∧
        (¬ (req.StartAt ≤ r.StartAt ∧ r.EndAt ≤ req.EndAt) →
          r' = r ∧ r ∉ selectSlotsForUpdate req db)) ∧
    checkSlots f db req (selectSlotsForUpdate req db) 0 = .ok () := by
  obtain ⟨userID', req', hs, hb, htx⟩ := reserveHandler_created _ _ _ _ _ _ h
  cases hs
  cases hb
  obtain ⟨-, hcheck, rows, hrows, hdb, -⟩ := reserveTx_ok _ _ _ _ _ _ _ htx
  have hmap := updateSlots_some _ _ _ hrows
  rw [hdb]
  subst hmap
  refine ⟨by simp, ?_, hcheck⟩
  intro i r hr
  have hmem : r ∈ db.reservation_slots := List.getElem?_mem hr
  simp only [List.getElem?_map, hr, Option.map_some']
  by_cases hc : req.StartAt ≤ r.StartAt ∧ r.EndAt ≤ req.EndAt
  · have hc' : isCandidate req r = true := by simp [isCandidate, hc]
    refine ⟨_, rfl, ?_⟩
    simp [hc', hc, selectSlotsForUpdate, List.mem_filter, hmem]
  · have hc' : ¬ isCandidate req r = true := by simpa [isCandidate] using hc
    refine ⟨_, rfl, ?_⟩
    simp [hc', hc, selectSlotsForUpdate, List.mem_filter]

theorem reserve_created_decrements_candidates_witness :
    (reserveLivestreamHandler fillUserResponse {} (.ok 7) (.ok (some firstHourReq))
        hourlySlotsDB).2.reservation_slots.length = hourlySlotsDB.reservation_slots.length ∧
    (∀ (i : Nat) (r : ReservationSlotModel), hourlySlotsDB.reservation_slots[i]? = some r →
      ∃ r', (reserveLivestreamHandler fillUserResponse {} (.ok 7) (.ok (some firstHourReq))
          hourlySlotsDB).2.reservation_slots[i]? = some r' ∧
        r'.ID = r.ID ∧ r'.StartAt = r.StartAt ∧ r'.EndAt = r.EndAt ∧
        ((firstHourReq.StartAt ≤ r.StartAt ∧ r.EndAt ≤ firstHourReq.EndAt) →
          r'.Slot = r.Slot - 1 ∧ r ∈ selectSlotsForUpdate firstHourReq hourlySlotsDB) ∧
        (¬ (firstHourReq.StartAt ≤ r.StartAt ∧ r.EndAt ≤ firstHourReq.EndAt) →
          r' = r ∧ r ∉ selectSlotsForUpdate firstHourReq hourlySlotsDB)) ∧
    checkSlots {} hourlySlotsDB firstHourReq
      (selectSlotsForUpdate firstHourReq hourlySlotsDB) 0 = .ok () :=
  reserve_created_decrements_candidates fillUserResponse {} 7 firstHourReq hourlySlotsDB
    { ID := 1, Owner := ⟨7, "alice", "Alice", "streamer", ⟨1, true⟩, defaultIconHash⟩,
      Title := "t", Description := "d", PlaylistUrl := "p", ThumbnailUrl := "i",
      Tags := [⟨1, "live"⟩, ⟨2, "music"⟩], StartAt := 1700874000, EndAt := 1700877600 }
    (by decide)

/-! ## C4 -/

/-- C4: when reserveLivestreamHandler answers 201, the livestreams table is the old one followed
by exactly one new row, whose user_id is the session user's id and whose title, description,
playlist_url, thumbnail_url, start_at and end_at are the request's; the livestream_tags table
is the old one followed by one row per element of req.Tags, in order, the i-th with
tag_id = req.Tags[i] and livestream_id = the new row's id; and the response's ID, Title,
Description, PlaylistUrl, ThumbnailUrl, StartAt and EndAt are those of the new row. -/
theorem reserve_created_records_request
    (fillUser : DB → UserModel → Except String User) (f : ReserveFaults) (userID : Int)
    (req : ReserveLivestreamRequest) (db : DB) (l : Livestream)
    (h : (reserveLivestreamHandler fillUser f (.ok userID) (.ok (some req)) db).1
      = .json 201 l) :
    ∃ (row : LivestreamModel) (added : List LivestreamTagModel),
      (reserveLivestreamHandler fillUser f (.ok userID) (.ok (some req)) db).2.livestreams
        = db.livestreams ++ [row] ∧
      row.UserID = userID ∧ row.Title = req.Title ∧ row.Description = req.Description ∧
      row.PlaylistUrl = req.PlaylistUrl ∧ row.ThumbnailUrl = req.ThumbnailUrl ∧
      row.StartAt = req.StartAt ∧ row.EndAt = req.EndAt ∧
      (reserveLivestreamHandler fillUser f (.ok userID) (.ok (some req)) db).2.livestream_tags
        = db.livestream_tags ++ added ∧
      added.length = req.Tags.length ∧
      (∀ (i : Nat) (t : Int), req.Tags[i]? = some t →
        ∃ a, added[i]? = some a ∧ a.TagID = t ∧ a.LivestreamID = row.ID) ∧
      l.ID = row.ID ∧ l.Title = row.Title ∧ l.Description = row.Description ∧
      l.PlaylistUrl = row.PlaylistUrl ∧ l.ThumbnailUrl = row.ThumbnailUrl ∧
      l.StartAt = row.StartAt ∧ l.EndAt = row.EndAt := by
  obtain ⟨userID', req', hs, hb, htx⟩ := reserveHandler_created _ _ _ _ _ _ h
  cases hs
  cases hb
  obtain ⟨-, -, rows, -, hdb, hfill⟩ := reserveTx_ok _ _ _ _ _ _ _ htx
  obtain ⟨h1, h2, h3, h4, h5, h6, h7, -⟩ := fillLivestreamResponse_ok _ _ _ _ _ hfill
  have hmap := tagRows_map db.livestreamsNextID db.livestreamTagsNextID req.Tags
  refine ⟨newLivestreamModel userID req db,
    tagRows db.livestreamsNextID db.livestreamTagsNextID req.Tags, ?_, rfl, rfl, rfl, rfl, rfl,
    rfl, rfl, ?_, ?_, ?_, h1, h2, h3, h4, h5, h6, h7⟩
  · rw [hdb]
  · rw [hdb]
  · simpa using congrArg List.length hmap
  · intro i t ht
    have hi := congrArg (fun xs => xs[i]?) hmap
    simp only [List.getElem?_map, ht, Option.map_some'] at hi
    cases ha : (tagRows db.livestreamsNextID db.livestreamTagsNextID req.Tags)[i]? with
    | none => simp [ha] at hi
    | some a =>
      simp only [ha, Option.map_some', Option.some.injEq, Prod.mk.injEq] at hi
      exact ⟨a, rfl, hi.2, hi.1⟩

theorem reserve_created_records_request_witness :
    ∃ (row : LivestreamModel) (added : List LivestreamTagModel),
      (reserveLivestreamHandler fillUserResponse {} (.ok 7) (.ok (some firstHourReq))
        hourlySlotsDB).2.livestreams = hourlySlotsDB.livestreams ++ [row] ∧
      row.UserID = 7 ∧ row.Title = firstHourReq.Title ∧
      row.Description = firstHourReq.Description ∧
      row.PlaylistUrl = firstHourReq.PlaylistUrl ∧
      row.ThumbnailUrl = firstHourReq.ThumbnailUrl ∧
      row.StartAt = firstHourReq.StartAt ∧ row.EndAt = firstHourReq.EndAt ∧
      (reserveLivestreamHandler fillUserResponse {} (.ok 7) (.ok (some firstHourReq))
        hourlySlotsDB).2.livestream_tags = hourlySlotsDB.livestream_tags ++ added ∧
      added.length = firstHourReq.Tags.length ∧
      (∀ (i : Nat) (t : Int), firstHourReq.Tags[i]? = some t →
        ∃ a, added[i]? = some a ∧ a.TagID = t ∧ a.LivestreamID = row.ID) ∧
      (⟨1, ⟨7, "alice", "Alice", "streamer", ⟨1, true⟩, defaultIconHash⟩, "t", "d", "p", "i",
          [⟨1, "live"⟩, ⟨2, "music"⟩], 1700874000, 1700877600⟩ : Livestream).ID = row.ID ∧
      "t" = row.Title ∧ "d" = row.Description ∧ "p" = row.PlaylistUrl ∧
      "i" = row.ThumbnailUrl ∧ (1700874000 : Int) = row.StartAt ∧
      (1700877600 : Int) = row.EndAt :=
  reserve_created_records_request fillUserResponse {} 7 firstHourReq hourlySlotsDB
    ⟨1, ⟨7, "alice", "Alice", "streamer", ⟨1, true⟩, defaultIconHash⟩, "t", "d", "p", "i",
      [⟨1, "live"⟩, ⟨2, "music"⟩], 1700874000, 1700877600⟩
    (by decide)

/-! ## C5 -/

/-- C5 fails on the code: the request `earlyReq` starts at 2023-11-25 00:00 UTC, one hour
before the term starts, so its interval is not contained in the term; the test of line 110
does not refuse it, and the handler answers 201 and inserts the livestream. -/
theorem reserve_accepts_request_starting_before_term :
    Time_Unix termStartAt = 1700874000 ∧ Time_Unix termEndAt = 1732496400 ∧
    earlyReq.StartAt < Time_Unix termStartAt ∧
    badTimeRange earlyReq = false ∧
    (reserveLivestreamHandler fillUserResponse {} (.ok 7) (.ok (some earlyReq))
      sampleDB).1.status = some 201 ∧
    (reserveLivestreamHandler fillUserResponse {} (.ok 7) (.ok (some earlyReq))
      sampleDB).2.livestreams = [⟨1, 7, "t", "d", "p", "i", 1700870400, 1700877600, 0, 0⟩] := by
  decide

/-! ## C7 -/

theorem enterHandler_history (f : ViewerFaults) (userID livestreamID now : Int) (db : DB) :
    ∃ added : List LivestreamViewerModel,
      (enterLivestreamHandler f (.ok userID) (.ok livestreamID) now db).2
        = { db with livestream_viewers_history := db.livestream_viewers_history ++ added } ∧
      ∀ v ∈ added, v.UserID = userID ∧ v.LivestreamID = livestreamID := by
  unfold enterLivestreamHandler
  cases f.beginTx
  · cases f.exec
    · cases f.commit
      · exact ⟨[⟨userID, livestreamID, now⟩], by simp, by simp⟩
      · exact ⟨[], by simp, by simp⟩
    · exact ⟨[], by simp, by simp⟩
  · exact ⟨[], by simp, by simp⟩

theorem runEnters_history (userID livestreamID : Int) (calls : List (ViewerFaults × Int))
    (db : DB) :
    ∃ added : List LivestreamViewerModel,
      runEnters userID livestreamID calls db
        = { db with livestream_viewers_history := db.livestream_viewers_history ++ added } ∧
      ∀ v ∈ added, v.UserID = userID ∧ v.LivestreamID = livestreamID := by
  induction calls generalizing db with
  | nil => exact ⟨[], by simp [runEnters], by simp⟩
  | cons c cs ih =>
    obtain ⟨a1, h1, h1'⟩ := enterHandler_history c.1 userID livestreamID c.2 db
    obtain ⟨a2, h2, h2'⟩ := ih (enterLivestreamHandler c.1 (.ok userID) (.ok livestreamID) c.2 db).2
    refine ⟨a1 ++ a2, ?_, ?_⟩
    · rw [runEnters, h2, h1]
      simp [List.append_assoc]
    · intro v hv
      rcases List.mem_append.1 hv with h | h
      · exact h1' v h
      · exact h2' v h

theorem exitHandler_ok (f : ViewerFaults) (sess : Session) (livestreamID : Except Unit Int)
    (db : DB) (h : (exitLivestreamHandler f sess livestreamID db).1 = .noContent 200) :
    ∃ u l, sess = .ok u ∧ livestreamID = .ok l ∧
      (exitLivestreamHandler f sess livestreamID db).2 = { db with
        livestream_viewers_history := db.livestream_viewers_history.filter
          (fun v => !(v.UserID == u && v.LivestreamID == l)) } := by
  unfold exitLivestreamHandler at h ⊢
  cases sess with
  | error e => simp at h
  | ok u =>
    cases livestreamID with
    | error e => simp at h
    | ok l =>
      cases h1 : f.beginTx
      · cases h2 : f.exec
        · cases h3 : f.commit
          · exact ⟨u, l, rfl, rfl, by simp⟩
          · simp [h1, h2, h3] at h
        · simp [h1, h2] at h
      · simp [h1] at h

/-- C7: let the user u enter the livestream l any number of times, starting from any state of
the database (no time at all gives every state), and then let exitLivestreamHandler succeed for
u and l.  Then livestream_viewers_history has no row with user_id = u and livestream_id = l;
it consists of the rows it had before the exit whose (user_id, livestream_id) differs from
(u, l), each as often as before and in the same order; these are the rows of that kind that
were there before the entries; and no other table has changed. -/
theorem exit_removes_presence_only (f : ViewerFaults) (u l : Int)
    (enters : List (ViewerFaults × Int)) (db : DB)
    (h : (exitLivestreamHandler f (.ok u) (.ok l) (runEnters u l enters db)).1
      = .noContent 200) :
    (∀ v ∈ (exitLivestreamHandler f (.ok u) (.ok l)
        (runEnters u l enters db)).2.livestream_viewers_history,
      ¬ (v.UserID = u ∧ v.LivestreamID = l)) ∧
    (exitLivestreamHandler f (.ok u) (.ok l)
        (runEnters u l enters db)).2.livestream_viewers_history
      = (runEnters u l enters db).livestream_viewers_history.filter
          (fun v => decide (¬ (v.UserID = u ∧ v.LivestreamID = l))) ∧
    (exitLivestreamHandler f (.ok u) (.ok l)
        (runEnters u l enters db)).2.livestream_viewers_history
      = db.livestream_viewers_history.filter
          (fun v => decide (¬ (v.UserID = u ∧ v.LivestreamID = l))) ∧
    (exitLivestreamHandler f (.ok u) (.ok l) (runEnters u l enters db)).2
      = { db with livestream_viewers_history :=
            (exitLivestreamHandler f (.ok u) (.ok l)
              (runEnters u l enters db)).2.livestream_viewers_history } := by
  obtain ⟨u', l', hu, hl, hdb⟩ := exitHandler_ok _ _ _ _ h
  cases hu
  cases hl
  obtain ⟨added, hrun, hadded⟩ := runEnters_history u l enters db
  have hfilter : ∀ xs : List LivestreamViewerModel,
      xs.filter (fun v => !(v.UserID == u && v.LivestreamID == l))
        = xs.filter (fun v => decide (¬ (v.UserID = u ∧ v.LivestreamID = l))) := by
    intro xs
    congr 1
    funext v
    by_cases h1 : v.UserID = u <;> by_cases h2 : v.LivestreamID = l <;> simp [h1, h2]
  have hnil : added.filter (fun v => decide (¬ (v.UserID = u ∧ v.LivestreamID = l))) = [] := by
    rw [List.filter_eq_nil_iff]
    intro v hv
    simp [hadded v hv]
  rw [hdb, hfilter]
  refine ⟨?_, rfl, ?_, ?_⟩
  · intro v hv
    exact of_decide_eq_true (List.mem_filter.1 hv).2
  · simp only [hrun, List.filter_append, hnil, List.append_nil]
  · rw [hrun]

theorem exit_removes_presence_only_witness :
    (exitLivestreamHandler {} (.ok 7) (.ok 3)
        (runEnters 7 3 [({}, 100), ({}, 200)]
          { sampleDB with livestream_viewers_history := [⟨8, 3, 50⟩, ⟨7, 3, 60⟩, ⟨7, 4, 70⟩] })
      ).2.livestream_viewers_history
      = ([⟨8, 3, 50⟩, ⟨7, 3, 60⟩, ⟨7, 4, 70⟩] : List LivestreamViewerModel).filter
          (fun v => decide (¬ (v.UserID = 7 ∧ v.LivestreamID = 3))) :=
  (exit_removes_presence_only {} 7 3 [({}, 100), ({}, 200)]
    { sampleDB with livestream_viewers_history := [⟨8, 3, 50⟩, ⟨7, 3, 60⟩, ⟨7, 4, 70⟩] }
    (by decide)).2.2.1

/-! ## Lemmas on searchLivestreamsHandler -/

theorem searchAssemble_ok (f : SearchFaults) (tx : DB) (ms : List LivestreamModel)
    (ls : List Livestream) (h : searchAssemble f tx ms = .ok ls) :
    ls = ms.map (batchedLivestream tx ms) := by
  unfold searchAssemble at h
  cases h1 : (ms.map (fun m => m.ID)).isEmpty
  case true => simp [h1] at h
  cases h2 : f.selectLivestreamTags
  case true => simp [h1, h2] at h
  simp only [h1, h2, Bool.false_eq_true, if_false] at h
  split at h
  · cases h
  cases h3 : (ms.map (fun m => m.UserID)).isEmpty
  case true => simp [h3] at h
  cases h4 : f.selectUsers
  case true => simp [h3, h4] at h
  cases h5 : f.selectThemes
  case true => simp [h3, h4, h5] at h
  cases h6 : f.selectIcons
  case true => simp [h3, h4, h5, h6] at h
  simp only [h3, h4, h5, h6, Bool.false_eq_true, if_false, Except.ok.injEq] at h
  rw [← h]
  rfl

theorem searchHandler_ok (f : SearchFaults) (keyTagName : String)
    (limit : Option (Except Unit Int)) (db : DB) (ls : List Livestream)
    (h : searchLivestreamsHandler f keyTagName limit db = .json 200 ls) :
    ∃ ms, searchLivestreamModels f keyTagName limit db = .ok ms ∧
      ls = ms.map (batchedLivestream db ms) := by
  unfold searchLivestreamsHandler at h
  cases h1 : f.beginTx
  case true => simp [h1] at h
  cases h2 : searchLivestreamModels f keyTagName limit db
  case error e => simp [h1, h2] at h
  rename_i ms
  cases h3 : searchAssemble f db ms
  case error e => simp [h1, h2, h3] at h
  rename_i ls'
  cases h4 : f.commit
  case true => simp [h1, h2, h3, h4] at h
  simp [h1, h2, h3, h4] at h
  subst h
  exact ⟨ms, rfl, searchAssemble_ok _ _ _ _ h3⟩

/-- The tag ids that the batched assembly groups under a selected livestream are the ones that
`fillLivestreamResponse` reads for it. -/
theorem batched_tagIDs (tx : DB) (ms : List LivestreamModel) (m : LivestreamModel)
    (hm : m ∈ ms) :
    (mapGet? (groupTagIDs (tx.livestream_tags.filter
        (fun t => (ms.map (fun m => m.ID)).contains t.LivestreamID))) m.ID).getD []
      = tagIDsOf tx m.ID := by
  unfold groupTagIDs tagIDsOf
  rw [foldl_group_get (fun t : LivestreamTagModel => t.LivestreamID) (fun t => t.TagID)]
  simp only [mapGet?, Option.getD_none, List.nil_append, List.filter_filter]
  congr 1
  apply List.filter_congr
  intro t _
  by_cases ht : t.LivestreamID = m.ID
  · have : m.ID ∈ ms.map (fun m => m.ID) := List.mem_map.2 ⟨m, hm, rfl⟩
    simp [ht, this]
  · simp [ht]

/-- Every tag id of a selected livestream is among the ids of the batched `tags` query. -/
theorem mem_batched_allTagIDs (tx : DB) (ms : List LivestreamModel) (m : LivestreamModel)
    (hm : m ∈ ms) (id : Int) (hid : id ∈ tagIDsOf tx m.ID) :
    id ∈ allTagIDs (groupTagIDs (tx.livestream_tags.filter
        (fun t => (ms.map (fun m => m.ID)).contains t.LivestreamID))) := by
  rw [mem_allTagIDs]
  unfold groupTagIDs
  apply mem_foldl_group (fun t : LivestreamTagModel => t.LivestreamID) (fun t => t.TagID)
  left
  unfold tagIDsOf at hid
  obtain ⟨t, ht, rfl⟩ := List.mem_map.1 hid
  obtain ⟨ht1, ht2⟩ := List.mem_filter.1 ht
  refine ⟨t, List.mem_filter.2 ⟨ht1, ?_⟩, rfl⟩
  have : m.ID ∈ ms.map (fun m => m.ID) := List.mem_map.2 ⟨m, hm, rfl⟩
  have ht3 : t.LivestreamID = m.ID := by simpa using ht2
  simp [ht3, this]

/-- The batched lookup of a tag id of a selected livestream yields the last row of `tags` with
that id. -/
theorem batched_tag_lookup (tx : DB) (ms : List LivestreamModel) (m : LivestreamModel)
    (hm : m ∈ ms) (id : Int) (hid : id ∈ tagIDsOf tx m.ID) :
    mapGet? (indexTags
      (if 0 < (allTagIDs (groupTagIDs (tx.livestream_tags.filter
          (fun t => (ms.map (fun m => m.ID)).contains t.LivestreamID)))).length
       then tx.tags.filter (fun t => (allTagIDs (groupTagIDs (tx.livestream_tags.filter
          (fun t => (ms.map (fun m => m.ID)).contains t.LivestreamID)))).contains t.ID)
       else [])) id
      = (tx.tags.filter (fun t => decide (t.ID = id))).getLast? := by
  have hmem := mem_batched_allTagIDs tx ms m hm id hid
  have hpos : 0 < (allTagIDs (groupTagIDs (tx.livestream_tags.filter
      (fun t => (ms.map (fun m => m.ID)).contains t.LivestreamID)))).length :=
    List.length_pos_of_mem hmem
  rw [if_pos hpos]
  unfold indexTags
  rw [foldl_mapSet_get (fun t : Tag => t.ID) (fun t => t)]
  simp only [List.filter_filter, mapGet?]
  have : tx.tags.filter (fun a => decide (a.ID = id) && (allTagIDs (groupTagIDs
      (tx.livestream_tags.filter
        (fun t => (ms.map (fun m => m.ID)).contains t.LivestreamID)))).contains a.ID)
      = tx.tags.filter (fun t => decide (t.ID = id)) := by
    apply List.filter_congr
    intro t _
    by_cases ht : t.ID = id
    · simpa [ht] using hmem
    · simp [ht]
  rw [this]
  cases (tx.tags.filter (fun t => decide (t.ID = id))).getLast? <;> rfl

theorem batched_scalars (tx : DB) (ms : List LivestreamModel) (m : LivestreamModel) :
    (batchedLivestream tx ms m).ID = m.ID ∧ (batchedLivestream tx ms m).Title = m.Title ∧
    (batchedLivestream tx ms m).Description = m.Description ∧
    (batchedLivestream tx ms m).PlaylistUrl = m.PlaylistUrl ∧
    (batchedLivestream tx ms m).ThumbnailUrl = m.ThumbnailUrl ∧
    (batchedLivestream tx ms m).StartAt = m.StartAt ∧
    (batchedLivestream tx ms m).EndAt = m.EndAt :=
  ⟨rfl, rfl, rfl, rfl, rfl, rfl, rfl⟩

/-- The tag list of a batched entry: one tag per `livestream_tags` row of the livestream, in the
order of those rows, each the last row of `tags` with the row's tag id. -/
theorem batched_tags (tx : DB) (ms : List LivestreamModel) (m : LivestreamModel)
    (hm : m ∈ ms) :
    (batchedLivestream tx ms m).Tags = (tagIDsOf tx m.ID).map
      (fun id => ((tx.tags.filter (fun t => decide (t.ID = id))).getLast?).getD zeroTag) := by
  unfold batchedLivestream buildLivestream
  simp only
  rw [batched_tagIDs tx ms m hm]
  apply List.map_congr_left
  intro id hid
  rw [batched_tag_lookup tx ms m hm id hid]

theorem lastTag_spec (tags : List Tag) (id : Int) (h : ∃ t ∈ tags, t.ID = id) :
    ∃ t, (tags.filter (fun t => decide (t.ID = id))).getLast? = some t ∧ t ∈ tags ∧ t.ID = id := by
  obtain ⟨t0, ht0, hid0⟩ := h
  cases hl : (tags.filter (fun t => decide (t.ID = id))).getLast? with
  | none =>
    rw [List.getLast?_eq_none_iff] at hl
    have : t0 ∈ tags.filter (fun t => decide (t.ID = id)) :=
      List.mem_filter.2 ⟨ht0, by simp [hid0]⟩
    rw [hl] at this
    cases this
  | some t =>
    have hmem := List.mem_of_getLast?_eq_some hl
    obtain ⟨h1, h2⟩ := List.mem_filter.1 hmem
    exact ⟨t, rfl, h1, by simpa using h2⟩

theorem searchHandler_entries (f : SearchFaults) (keyTagName : String)
    (limit : Option (Except Unit Int)) (db : DB) (ls : List Livestream)
    (h : searchLivestreamsHandler f keyTagName limit db = .json 200 ls) :
    ∃ ms, searchLivestreamModels f keyTagName limit db = .ok ms ∧ ls.length = ms.length ∧
      ∀ (i : Nat) (m : LivestreamModel), ms[i]? = some m →
        m ∈ ms ∧ ls[i]? = some (batchedLivestream db ms m) := by
  obtain ⟨ms, hms, hls⟩ := searchHandler_ok _ _ _ _ _ h
  subst hls
  refine ⟨ms, hms, by simp, ?_⟩
  intro i m hi
  exact ⟨List.getElem?_mem hi, by simp [List.getElem?_map, hi]⟩

theorem tag_eq_of_id (tags : List Tag) (hpk : tags.Pairwise (fun x y => x.ID ≠ y.ID))
    (a b : Tag) (ha : a ∈ tags) (hb : b ∈ tags) (h : a.ID = b.ID) : a = b := by
  induction tags with
  | nil => cases ha
  | cons x xs ih =>
    rw [List.pairwise_cons] at hpk
    rcases List.mem_cons.1 ha with rfl | ha'
    · rcases List.mem_cons.1 hb with rfl | hb'
      · rfl
      · exact absurd h (hpk.1 b hb')
    · rcases List.mem_cons.1 hb with rfl | hb'
      · exact absurd h.symm (hpk.1 a ha')
      · exact ih hpk.2 ha' hb'

/-! ## C8 -/

/-- C8, as stated, fails: in `taggedDB` every tag_id of livestream_tags refers to a tags row;
the search selects the one livestream; its batched entry lists the tags in the order of the
livestream_tags rows (music, live), the entry of fillLivestreamResponse lists them in the order
of the tags table (live, music). -/
theorem search_tags_order_differs_from_fill :
    (∀ lt ∈ taggedDB.livestream_tags, ∃ t ∈ taggedDB.tags, t.ID = lt.TagID) ∧
    searchLivestreamModels {} "" none taggedDB
      = .ok [⟨1, 7, "t", "d", "p", "i", 1700874000, 1700877600, 0, 0⟩] ∧
    searchLivestreamsHandler {} "" none taggedDB
      = .json 200 [⟨1, ⟨7, "alice", "Alice", "streamer", ⟨1, true⟩, defaultIconHash⟩, "t", "d",
          "p", "i", [⟨2, "music"⟩, ⟨1, "live"⟩], 1700874000, 1700877600⟩] ∧
    fillLivestreamResponse fillUserResponse {} taggedDB
        ⟨1, 7, "t", "d", "p", "i", 1700874000, 1700877600, 0, 0⟩
      = .ok ⟨1, ⟨7, "alice", "Alice", "streamer", ⟨1, true⟩, defaultIconHash⟩, "t", "d",
          "p", "i", [⟨1, "live"⟩, ⟨2, "music"⟩], 1700874000, 1700877600⟩ := by
  decide

/-- C8, amended: when every tag_id of livestream_tags refers to a tags row and the search
answers 200, the entry of every selected row m has the same ID, Title, Description,
PlaylistUrl, ThumbnailUrl, StartAt and EndAt as the Livestream that fillLivestreamResponse
builds for m, and the same tag ids; every tag of the batched entry is a tag of the other, and
when no two tags rows have the same id the two lists have the same members.  The batched list
has one tag per livestream_tags row of m in the order of those rows, the list of
fillLivestreamResponse one per matching tags row in the order of the tags table. -/
theorem search_batched_agrees_with_fill (fillUser : DB → UserModel → Except String User)
    (f : SearchFaults) (ff : FillFaults) (keyTagName : String)
    (limit : Option (Except Unit Int)) (db : DB) (ls : List Livestream)
    (hresp : searchLivestreamsHandler f keyTagName limit db = .json 200 ls)
    (href : ∀ lt ∈ db.livestream_tags, ∃ t ∈ db.tags, t.ID = lt.TagID) :
    ∃ ms, searchLivestreamModels f keyTagName limit db = .ok ms ∧ ls.length = ms.length ∧
      ∀ (i : Nat) (m : LivestreamModel), ms[i]? = some m →
        ∃ b, ls[i]? = some b ∧
          ∀ l, fillLivestreamResponse fillUser ff db m = .ok l →
            b.ID = l.ID ∧ b.Title = l.Title ∧ b.Description = l.Description ∧
            b.PlaylistUrl = l.PlaylistUrl ∧ b.ThumbnailUrl = l.ThumbnailUrl ∧
            b.StartAt = l.StartAt ∧ b.EndAt = l.EndAt ∧
            b.Tags.map (fun t => t.ID) = tagIDsOf db m.ID ∧
            l.Tags = db.tags.filter (fun t => (tagIDsOf db m.ID).contains t.ID) ∧
            (∀ t ∈ b.Tags, t ∈ l.Tags) ∧
            (∀ t ∈ l.Tags, ∃ t' ∈ b.Tags, t'.ID = t.ID) ∧
            (db.tags.Pairwise (fun x y => x.ID ≠ y.ID) → ∀ t, t ∈ b.Tags ↔ t ∈ l.Tags) := by
  obtain ⟨ms, hms, hlen, hent⟩ := searchHandler_entries _ _ _ _ _ hresp
  refine ⟨ms, hms, hlen, ?_⟩
  intro i m hi
  obtain ⟨hm, hb⟩ := hent i m hi
  refine ⟨_, hb, ?_⟩
  intro l hl
  obtain ⟨h1, h2, h3, h4, h5, h6, h7, h8⟩ := fillLivestreamResponse_ok _ _ _ _ _ hl
  have hl8 : l.Tags = db.tags.filter (fun t => (tagIDsOf db m.ID).contains t.ID) := h8
  have hbt := batched_tags db ms m hm
  -- every tag id of `m` has a row in `tags`
  have hrow : ∀ id ∈ tagIDsOf db m.ID, ∃ t,
      (db.tags.filter (fun t => decide (t.ID = id))).getLast? = some t ∧ t ∈ db.tags ∧
        t.ID = id := by
    intro id hid
    apply lastTag_spec
    unfold tagIDsOf at hid
    obtain ⟨lt, hlt, rfl⟩ := List.mem_map.1 hid
    exact href lt (List.mem_filter.1 hlt).1
  have hsub : ∀ t ∈ (batchedLivestream db ms m).Tags, t ∈ l.Tags := by
    intro t ht
    rw [hbt] at ht
    obtain ⟨id, hid, rfl⟩ := List.mem_map.1 ht
    obtain ⟨t', ht', hmem, hid'⟩ := hrow id hid
    rw [ht', hl8]
    simp only [Option.getD_some]
    exact List.mem_filter.2 ⟨hmem, by simpa [hid'] using hid⟩
  have hsup : ∀ t ∈ l.Tags, ∃ t' ∈ (batchedLivestream db ms m).Tags, t'.ID = t.ID := by
    intro t ht
    rw [hl8] at ht
    obtain ⟨-, ht2⟩ := List.mem_filter.1 ht
    have hid : t.ID ∈ tagIDsOf db m.ID := by simpa using ht2
    obtain ⟨t', ht', -, hid'⟩ := hrow t.ID hid
    refine ⟨t', ?_, hid'⟩
    rw [hbt]
    exact List.mem_map.2 ⟨t.ID, hid, by rw [ht']; rfl⟩
  refine ⟨h1.symm, h2.symm, h3.symm, h4.symm, h5.symm, h6.symm, h7.symm, ?_, hl8, hsub, hsup, ?_⟩
  · rw [hbt, List.map_map]
    have : ∀ id ∈ tagIDsOf db m.ID,
        ((fun t : Tag => t.ID) ∘ fun id =>
          ((db.tags.filter (fun t => decide (t.ID = id))).getLast?).getD zeroTag) id = id := by
      intro id hid
      obtain ⟨t', ht', -, hid'⟩ := hrow id hid
      show (((db.tags.filter (fun t => decide (t.ID = id))).getLast?).getD zeroTag).ID = id
      rw [ht']
      exact hid'
    rw [List.map_congr_left this]
    simp
  · intro hpk t
    constructor
    · exact hsub t
    · intro ht
      obtain ⟨t', ht', hid'⟩ := hsup t ht
      have hm1 : t' ∈ db.tags := by
        have := hsub t' ht'
        rw [hl8] at this
        exact (List.mem_filter.1 this).1
      have hm2 : t ∈ db.tags := by
        rw [hl8] at ht
        exact (List.mem_filter.1 ht).1
      have : t' = t := tag_eq_of_id _ hpk _ _ hm1 hm2 hid'
      rw [← this]
      exact ht'

theorem search_batched_agrees_with_fill_witness :
    ∃ ms, searchLivestreamModels {} "" none taggedDB = .ok ms ∧
      ([⟨1, ⟨7, "alice", "Alice", "streamer", ⟨1, true⟩, defaultIconHash⟩, "t", "d", "p", "i",
        [⟨2, "music"⟩, ⟨1, "live"⟩], 1700874000, 1700877600⟩] : List Livestream).length
        = ms.length :=
  let ⟨ms, h1, h2, _⟩ := search_batched_agrees_with_fill fillUserResponse {} {} "" none taggedDB
    [⟨1, ⟨7, "alice", "Alice", "streamer", ⟨1, true⟩, defaultIconHash⟩, "t", "d", "p", "i",
      [⟨2, "music"⟩, ⟨1, "live"⟩], 1700874000, 1700877600⟩]
    (by decide) (by decide)
  ⟨ms, h1, h2⟩

/-! ## C9 -/

theorem filter_filter_of_mem {α : Type} (key : α → Int) (ks : List Int) (k : Int)
    (hk : k ∈ ks) (xs : List α) :
    (xs.filter (fun x => ks.contains (key x))).filter (fun x => decide (key x = k))
      = xs.filter (fun x => decide (key x = k)) := by
  rw [List.filter_filter]
  apply List.filter_congr
  intro x _
  by_cases hx : key x = k
  · simpa [hx] using hk
  · simp [hx]

/-- The owner of a batched entry is built from the last row of `users` with the livestream's
user id; its icon hash comes from the last row of `icons` of that user and its theme from the
first row of `themes` of that user. -/
theorem batched_owner (tx : DB) (ms : List LivestreamModel) (m : LivestreamModel)
    (hm : m ∈ ms) (u : UserModel)
    (hu : (tx.users.filter (fun u => decide (u.ID = m.UserID))).getLast? = some u) :
    (batchedLivestream tx ms m).Owner =
      { ID := u.ID, Name := u.Name, DisplayName := u.DisplayName, Description := u.Description,
        Theme :=
          match (tx.themes.filter (fun th => decide (th.UserID = m.UserID))).head? with
          | some th => { ID := th.ID, DarkMode := th.DarkMode }
          | none => { ID := 0, DarkMode := false }
        IconHash :=
          match (tx.icons.filter (fun ic => decide (ic.UserID = m.UserID))).getLast? with
          | some ic => ic.IconHash
          | none => defaultIconHash } := by
  have hk : m.UserID ∈ ms.map (fun m => m.UserID) := List.mem_map.2 ⟨m, hm, rfl⟩
  have huid : u.ID = m.UserID := by
    have := (List.mem_filter.1 (List.mem_of_getLast?_eq_some hu)).2
    simpa using this
  unfold batchedLivestream buildLivestream
  simp only
  unfold buildOwners
  rw [foldl_mapSet_get (fun u : UserModel => u.ID),
    filter_filter_of_mem (fun u : UserModel => u.ID) _ _ hk, hu]
  simp only [mapGet?, Option.getD_some]
  unfold buildOwner
  simp only [huid]
  have hicon : mapGet? (indexIcons (tx.icons.filter
      (fun i => (ms.map (fun m => m.UserID)).contains i.UserID))) m.UserID
      = (tx.icons.filter (fun ic => decide (ic.UserID = m.UserID))).getLast? := by
    unfold indexIcons
    rw [foldl_mapSet_get (fun i : IconModel => i.UserID) (fun i => i),
      filter_filter_of_mem (fun i : IconModel => i.UserID) _ _ hk]
    cases (tx.icons.filter (fun ic => decide (ic.UserID = m.UserID))).getLast? <;> rfl
  have htheme : (mapGet? (groupThemes (tx.themes.filter
      (fun t => (ms.map (fun m => m.UserID)).contains t.UserID))) m.UserID).getD []
      = tx.themes.filter (fun th => decide (th.UserID = m.UserID)) := by
    unfold groupThemes
    rw [foldl_group_get (fun t : ThemeModel => t.UserID) (fun t => t),
      filter_filter_of_mem (fun t : ThemeModel => t.UserID) _ _ hk]
    simp [mapGet?]
  rw [hicon]
  congr 1
  · rw [← htheme]
    cases hg : mapGet? (groupThemes (tx.themes.filter
      (fun t => (ms.map (fun m => m.UserID)).contains t.UserID))) m.UserID with
    | none => rfl
    | some l =>
      cases l with
      | nil => rfl
      | cons t rest => rfl

theorem lastUser_spec (users : List UserModel) (id : Int) (h : ∃ u ∈ users, u.ID = id) :
    ∃ u, (users.filter (fun u => decide (u.ID = id))).getLast? = some u ∧ u ∈ users ∧
      u.ID = id := by
  obtain ⟨u0, hu0, hid0⟩ := h
  cases hl : (users.filter (fun u => decide (u.ID = id))).getLast? with
  | none =>
    rw [List.getLast?_eq_none_iff] at hl
    have : u0 ∈ users.filter (fun u => decide (u.ID = id)) :=
      List.mem_filter.2 ⟨hu0, by simp [hid0]⟩
    rw [hl] at this
    cases this
  | some u =>
    have hmem := List.mem_of_getLast?_eq_some hl
    obtain ⟨h1, h2⟩ := List.mem_filter.1 hmem
    exact ⟨u, rfl, h1, by simpa using h2⟩

/-- C9: when the search answers 200, the entry of every selected row m whose user_id matches a
users row has an Owner with ID = m.user_id and the Name, DisplayName and Description of the
users row with that id (the last one, were there several); Owner.IconHash is the icon_hash of
the user's icons row when there is one (the last one, were there several) and the fixed default
hash otherwise; Owner.Theme has the ID and DarkMode of the user's themes row (the first one,
were there several; the zero theme when there is none). -/
theorem search_entry_carries_owner (f : SearchFaults) (keyTagName : String)
    (limit : Option (Except Unit Int)) (db : DB) (ls : List Livestream)
    (hresp : searchLivestreamsHandler f keyTagName limit db = .json 200 ls) :
    ∃ ms, searchLivestreamModels f keyTagName limit db = .ok ms ∧ ls.length = ms.length ∧
      ∀ (i : Nat) (m : LivestreamModel), ms[i]? = some m →
        (∃ u ∈ db.users, u.ID = m.UserID) →
        ∃ b u, ls[i]? = some b ∧
          (db.users.filter (fun u => decide (u.ID = m.UserID))).getLast? = some u ∧
          u ∈ db.users ∧ u.ID = m.UserID ∧
          b.Owner.ID = m.UserID ∧ b.Owner.Name = u.Name ∧
          b.Owner.DisplayName = u.DisplayName ∧ b.Owner.Description = u.Description ∧
          b.Owner.IconHash =
            (match (db.icons.filter (fun ic => decide (ic.UserID = m.UserID))).getLast? with
              | some ic => ic.IconHash
              | none => "d9f8294e9d895f81ce62e73dc7d5dff862a4fa40bd4e0fecf53f7526a8edcac0") ∧
          b.Owner.Theme =
            (match (db.themes.filter (fun th => decide (th.UserID = m.UserID))).head? with
              | some th => { ID := th.ID, DarkMode := th.DarkMode }
              | none => { ID := 0, DarkMode := false }) := by
  obtain ⟨ms, hms, hlen, hent⟩ := searchHandler_entries _ _ _ _ _ hresp
  refine ⟨ms, hms, hlen, ?_⟩
  intro i m hi hex
  obtain ⟨hm, hb⟩ := hent i m hi
  obtain ⟨u, hu, hmem, hid⟩ := lastUser_spec db.users m.UserID hex
  have ho := batched_owner db ms m hm u hu
  refine ⟨_, u, hb, hu, hmem, hid, ?_⟩
  rw [ho]
  exact ⟨hid, rfl, rfl, rfl, rfl, rfl⟩

theorem search_entry_carries_owner_witness :
    ∃ ms, searchLivestreamModels {} "" none taggedDB = .ok ms ∧
      ([⟨1, ⟨7, "alice", "Alice", "streamer", ⟨1, true⟩, defaultIconHash⟩, "t", "d", "p", "i",
        [⟨2, "music"⟩, ⟨1, "live"⟩], 1700874000, 1700877600⟩] : List Livestream).length
        = ms.length :=
  let ⟨ms, h1, h2, _⟩ := search_entry_carries_owner {} "" none taggedDB
    [⟨1, ⟨7, "alice", "Alice", "streamer", ⟨1, true⟩, defaultIconHash⟩, "t", "d", "p", "i",
      [⟨2, "music"⟩, ⟨1, "live"⟩], 1700874000, 1700877600⟩]
    (by decide)
  ⟨ms, h1, h2⟩

/-! ## C10 -/

theorem fillReports_ok {ρ : Type} (fillReport : DB → LivecommentReportModel → Except String ρ)
    (tx : DB) (rows : List LivecommentReportModel) (reports : List ρ)
    (h : fillReports fillReport tx rows = .ok reports) :
    List.Forall₂ (fun r x => fillReport tx r = .ok x) rows reports := by
  induction rows generalizing reports with
  | nil =>
    simp only [fillReports, Except.ok.injEq] at h
    subst h
    exact List.Forall₂.nil
  | cons r rest ih =>
    unfold fillReports at h
    cases h1 : fillReport tx r with
    | error e => simp [h1] at h
    | ok x =>
      cases h2 : fillReports fillReport tx rest with
      | error e => simp [h1, h2] at h
      | ok xs =>
        simp only [h1, h2, Except.ok.injEq] at h
        subst h
        exact List.Forall₂.cons h1 (ih xs h2)

theorem fillReports_error {ρ : Type} (fillReport : DB → LivecommentReportModel → Except String ρ)
    (tx : DB) (rows : List LivecommentReportModel) (e : HTTPError)
    (h : fillReports fillReport tx rows = .error e) : e.status = 500 := by
  induction rows with
  | nil => simp [fillReports] at h
  | cons r rest ih =>
    unfold fillReports at h
    cases h1 : fillReport tx r with
    | error e1 =>
      simp only [h1, Except.error.injEq] at h
      rw [← h]
    | ok x =>
      cases h2 : fillReports fillReport tx rest with
      | error e2 =>
        simp only [h1, h2, Except.error.injEq] at h
        subst h
        exact ih h2
      | ok xs => simp [h1, h2] at h

theorem fillReports_total {ρ : Type} (fillReport : DB → LivecommentReportModel → Except String ρ)
    (tx : DB) (rows : List LivecommentReportModel)
    (h : ∀ r ∈ rows, ∃ x, fillReport tx r = .ok x) :
    ∃ reports, fillReports fillReport tx rows = .ok reports := by
  induction rows with
  | nil => exact ⟨[], rfl⟩
  | cons r rest ih =>
    obtain ⟨x, hx⟩ := h r (List.mem_cons_self _ _)
    obtain ⟨xs, hxs⟩ := ih (fun r' hr' => h r' (List.mem_cons_of_mem _ hr'))
    exact ⟨x :: xs, by simp [fillReports, hx, hxs]⟩

/-- The handler once the session is valid, the id parsed, the transaction begun and the
livestream row read. -/
theorem reportsHandler_eq {ρ : Type}
    (fillReport : DB → LivecommentReportModel → Except String ρ) (f : ReportsFaults)
    (userID id : Int) (db : DB) (m : LivestreamModel)
    (hb : f.beginTx = false) (hg : f.getLivestream = false)
    (hm : db.livestreams.find? (fun m => m.ID == id) = some m) :
    getLivecommentReportsHandler fillReport f (.ok userID) (.ok id) db =
      if m.UserID ≠ userID then
        .httpError ⟨403, "can\x27t get other streamer\x27s livecomment reports"⟩
      else if f.selectReports then .httpError ⟨500, "failed to get livecomment reports: "⟩
      else
        match fillReports fillReport db
            (db.livecomment_reports.filter (fun r => r.LivestreamID == id)) with
        | .error e => .httpError e
        | .ok reports =>
          if f.commit then .httpError ⟨500, "failed to commit: "⟩ else .json 200 reports := by
  unfold getLivecommentReportsHandler
  simp only [hb, hg, hm, Bool.false_eq_true, if_false]

/-- C10: for a valid session of the user userID and a request for the existing livestream m
(the livestreams row with the requested id), the transaction having begun and the row having
been read: getLivecommentReportsHandler answers 403, with the message "can't get other
streamer's livecomment reports", if and only if m.user_id differs from userID; when they are
equal and the later calls succeed it answers 200; and whenever it answers 200 the reports are,
in order, one per livecomment_reports row whose livestream_id is the requested id, each built
from that row, and none from a row of another livestream. -/
theorem reports_visible_to_owner_only {ρ : Type}
    (fillReport : DB → LivecommentReportModel → Except String ρ) (f : ReportsFaults)
    (userID id : Int) (db : DB) (m : LivestreamModel)
    (hb : f.beginTx = false) (hg : f.getLivestream = false)
    (hm : db.livestreams.find? (fun m => m.ID == id) = some m) :
    ((getLivecommentReportsHandler fillReport f (.ok userID) (.ok id) db).status = some 403
      ↔ m.UserID ≠ userID) ∧
    (m.UserID ≠ userID →
      getLivecommentReportsHandler fillReport f (.ok userID) (.ok id) db
        = .httpError ⟨403, "can\x27t get other streamer\x27s livecomment reports"⟩) ∧
    (m.UserID = userID → f.selectReports = false → f.commit = false →
      (∀ r ∈ db.livecomment_reports, r.LivestreamID = id → ∃ x, fillReport db r = .ok x) →
      ∃ reports, getLivecommentReportsHandler fillReport f (.ok userID) (.ok id) db
        = .json 200 reports) ∧
    (∀ reports, getLivecommentReportsHandler fillReport f (.ok userID) (.ok id) db
        = .json 200 reports →
      m.UserID = userID ∧
      List.Forall₂ (fun r x => fillReport db r = .ok x)
        (db.livecomment_reports.filter (fun r => r.LivestreamID == id)) reports ∧
      reports.length = (db.livecomment_reports.filter (fun r => r.LivestreamID == id)).length ∧
      ∀ r ∈ db.livecomment_reports.filter (fun r => r.LivestreamID == id),
        r.LivestreamID = id) := by
  have heq := reportsHandler_eq fillReport f userID id db m hb hg hm
  by_cases hu : m.UserID = userID
  · have hne : ¬ (m.UserID ≠ userID) := fun h => h hu
    rw [if_neg hne] at heq
    refine ⟨?_, fun h => absurd hu h, ?_, ?_⟩
    · constructor
      · intro hs
        exfalso
        rw [heq] at hs
        cases hsel : f.selectReports
        · simp only [hsel, Bool.false_eq_true, if_false] at hs
          cases hr : fillReports fillReport db
              (db.livecomment_reports.filter (fun r => r.LivestreamID == id)) with
          | error e =>
            have := fillReports_error _ _ _ _ hr
            simp [hr, Response.status, this] at hs
          | ok xs => cases hc : f.commit <;> simp [hr, hc, Response.status] at hs
        · simp [hsel, Response.status] at hs
      · intro h; exact absurd hu h
    · intro _ hsel hc hfill
      obtain ⟨reports, hr⟩ := fillReports_total fillReport db
        (db.livecomment_reports.filter (fun r => r.LivestreamID == id))
        (fun r hr => hfill r (List.mem_filter.1 hr).1 (by simpa using (List.mem_filter.1 hr).2))
      exact ⟨reports, by rw [heq]; simp [hsel, hc, hr]⟩
    · intro reports hresp
      rw [heq] at hresp
      cases hsel : f.selectReports with
      | true => simp [hsel] at hresp
      | false =>
        cases hr : fillReports fillReport db
            (db.livecomment_reports.filter (fun r => r.LivestreamID == id)) with
        | error e => simp [hsel, hr] at hresp
        | ok xs =>
          cases hc : f.commit with
          | true => simp [hsel, hr, hc] at hresp
          | false =>
            simp [hsel, hr, hc] at hresp
            subst hresp
            have h2 := fillReports_ok _ _ _ _ hr
            refine ⟨hu, h2, h2.length_eq.symm, ?_⟩
            intro r hr'
            simpa using (List.mem_filter.1 hr').2
  · have h403 : getLivecommentReportsHandler fillReport f (.ok userID) (.ok id) db
        = .httpError ⟨403, "can\x27t get other streamer\x27s livecomment reports"⟩ := by
      rw [heq, if_pos hu]
    refine ⟨?_, fun _ => h403, fun h => absurd h hu, ?_⟩
    · rw [h403]
      simp [Response.status, hu]
    · intro reports hresp
      rw [h403] at hresp
      cases hresp

theorem reports_visible_to_owner_only_witness :
    ∃ reports, getLivecommentReportsHandler (fun _ r => Except.ok r.ID) {} (.ok 7) (.ok 1)
      reportedDB = .json 200 reports :=
  (reports_visible_to_owner_only (fun _ r => Except.ok r.ID) {} 7 1 reportedDB
    ⟨1, 7, "t", "d", "p", "i", 1700874000, 1700877600, 0, 0⟩ rfl rfl (by decide)).2.2.1
    (by decide) rfl rfl (fun r _ _ => ⟨r.ID, rfl⟩)

/-! ## Lemmas for C11 -/

theorem insertTags_total (f : ReserveFaults) (livestreamID : Int) (tags : List Int) (i : Nat)
    (tx : DB) (hf : ∀ i, f.insertTag i = false) :
    insertTags f livestreamID tags i tx = .ok { tx with
      livestream_tags := tx.livestream_tags ++ tagRows livestreamID tx.livestreamTagsNextID tags
      livestreamTagsNextID := tx.livestreamTagsNextID + tags.length } := by
  induction tags generalizing i tx with
  | nil => simp [insertTags, tagRows]
  | cons t ts ih =>
    unfold insertTags
    simp only [hf, Bool.false_eq_true, if_false]
    rw [ih]
    simp [tagRows, List.append_assoc]
    omega

theorem updateSlots_no_candidate (req : ReserveLivestreamRequest)
    (rows : List ReservationSlotModel) (h : ∀ r ∈ rows, isCandidate req r = false) :
    updateSlots req rows = some rows := by
  unfold updateSlots
  have hany : rows.any (fun r => isCandidate req r && decide (r.Slot - 1 < int64Min)) = false := by
    rw [List.any_eq_false]
    intro r hr
    simp [h r hr]
  rw [hany]
  simp only [Bool.false_eq_true, if_false, Option.some.injEq]
  have hmap : ∀ r ∈ rows,
      (fun r => if isCandidate req r = true then { r with Slot := r.Slot - 1 } else r) r = id r := by
    intro r hr
    simp [h r hr]
  rw [List.map_congr_left hmap, List.map_id]

theorem selectSlotsForUpdate_no_candidate (req : ReserveLivestreamRequest) (db : DB)
    (h : ∀ r ∈ db.reservation_slots, isCandidate req r = false) :
    selectSlotsForUpdate req db = [] := by
  unfold selectSlotsForUpdate
  rw [List.filter_eq_nil_iff]
  intro r hr
  simp [h r hr]

theorem fillLivestreamResponse_total (fillUser : DB → UserModel → Except String User)
    (f : FillFaults) (tx : DB) (m : LivestreamModel) (u : UserModel) (owner : User)
    (h1 : f.getOwner = false) (h2 : f.selectTagIDs = false) (h3 : f.selectTags = false)
    (hu : tx.users.find? (fun u => u.ID == m.UserID) = some u)
    (ho : fillUser tx u = .ok owner) :
    ∃ l, fillLivestreamResponse fillUser f tx m = .ok l ∧ l.Owner = owner := by
  unfold fillLivestreamResponse
  simp only [h1, h2, h3, hu, ho, Bool.false_eq_true, if_false]
  split
  · exact ⟨_, rfl, rfl⟩
  · exact ⟨_, rfl, rfl⟩

/-- With no candidate row and no failing call, the transaction body inserts and changes nothing
else. -/
theorem reserveTx_no_candidate (fillUser : DB → UserModel → Except String User)
    (f : ReserveFaults) (userID : Int) (req : ReserveLivestreamRequest) (db : DB)
    (u : UserModel) (owner : User)
    (hrange : badTimeRange req = false)
    (hnone : ∀ r ∈ db.reservation_slots, isCandidate req r = false)
    (hf : f.AllSucceed)
    (hu : db.users.find? (fun u => u.ID == userID) = some u)
    (ho : fillUser (afterInserts userID req db) u = .ok owner) :
    ∃ l, reserveTx fillUser f userID req db = .ok (l, afterInserts userID req db) ∧
      l.Owner = owner := by
  obtain ⟨-, hs, -, hup, hi, hl, ht, hg, hti, hts, -⟩ := hf
  have hfill := fillLivestreamResponse_total fillUser f.fill (afterInserts userID req db)
    (newLivestreamModel userID req db) u owner hg hti hts hu ho
  obtain ⟨l, hl1, hl2⟩ := hfill
  refine ⟨l, ?_, hl2⟩
  unfold reserveTx
  simp only [hrange, hs, hup, hi, hl, Bool.false_eq_true, if_false,
    selectSlotsForUpdate_no_candidate req db hnone, checkSlots,
    updateSlots_no_candidate req db.reservation_slots hnone, insertTags_total _ _ _ _ _ ht]
  have hm : newLivestreamModel userID req
      { db with reservation_slots := db.reservation_slots } = newLivestreamModel userID req db :=
    rfl
  have hdb : ({ db with
      reservation_slots := db.reservation_slots
      livestreams := db.livestreams ++ [newLivestreamModel userID req db]
      livestreamsNextID := db.livestreamsNextID + 1
      livestream_tags := db.livestream_tags ++
        tagRows db.livestreamsNextID db.livestreamTagsNextID req.Tags
      livestreamTagsNextID := db.livestreamTagsNextID + req.Tags.length } : DB)
      = afterInserts userID req db := rfl
  simp only [hm, hdb, hl1]

/-! ## C11 -/

/-- C11: for a request that passes the time-range check and for which no reservation_slots row
has start_at >= req.StartAt and end_at <= req.EndAt, whatever the slot counts of the rows:
the SELECT ... FOR UPDATE returns no row, so no capacity is checked; when no database call
fails (the session user's row is found and fillUserResponse succeeds on it),
reserveLivestreamHandler answers 201, the livestreams table is the old one followed by the new
row, every row of reservation_slots is unchanged, and nothing but the two kinds of INSERT has
changed the database. -/
theorem reserve_without_whole_slot_unchecked
    (fillUser : DB → UserModel → Except String User) (f : ReserveFaults) (userID : Int)
    (req : ReserveLivestreamRequest) (db : DB) (u : UserModel) (owner : User)
    (hrange : badTimeRange req = false)
    (hnone : ∀ r ∈ db.reservation_slots, ¬ (req.StartAt ≤ r.StartAt ∧ r.EndAt ≤ req.EndAt))
    (hf : f.AllSucceed)
    (hu : db.users.find? (fun u => u.ID == userID) = some u)
    (ho : fillUser (afterInserts userID req db) u = .ok owner) :
    selectSlotsForUpdate req db = [] ∧
    ∃ l, (reserveLivestreamHandler fillUser f (.ok userID) (.ok (some req)) db).1
        = .json 201 l ∧
      (reserveLivestreamHandler fillUser f (.ok userID) (.ok (some req)) db).2.reservation_slots
        = db.reservation_slots ∧
      (reserveLivestreamHandler fillUser f (.ok userID) (.ok (some req)) db).2.livestreams
        = db.livestreams ++ [newLivestreamModel userID req db] ∧
      (reserveLivestreamHandler fillUser f (.ok userID) (.ok (some req)) db).2
        = afterInserts userID req db := by
  have hnone' : ∀ r ∈ db.reservation_slots, isCandidate req r = false := by
    intro r hr
    have := hnone r hr
    cases hc : isCandidate req r with
    | false => rfl
    | true =>
      exfalso
      apply this
      simpa [isCandidate] using hc
  obtain ⟨l, hl, -⟩ := reserveTx_no_candidate fillUser f userID req db u owner hrange hnone' hf
    hu ho
  have hb : f.beginTx = false := hf.1
  have hc : f.commit = false := hf.2.2.2.2.2.2.2.2.2.2
  have hres : reserveLivestreamHandler fillUser f (.ok userID) (.ok (some req)) db
      = (.json 201 l, afterInserts userID req db) := by
    unfold reserveLivestreamHandler
    simp [hb, hc, hl]
  refine ⟨selectSlotsForUpdate_no_candidate req db hnone', l, ?_, ?_, ?_, ?_⟩ <;> rw [hres] <;>
    rfl

theorem reserve_without_whole_slot_unchecked_witness :
    selectSlotsForUpdate reversedReq fullSlotDB = [] ∧
    ∃ l, (reserveLivestreamHandler fillUserResponse {} (.ok 7) (.ok (some reversedReq))
        fullSlotDB).1 = .json 201 l ∧
      (reserveLivestreamHandler fillUserResponse {} (.ok 7) (.ok (some reversedReq))
        fullSlotDB).2.reservation_slots = fullSlotDB.reservation_slots ∧
      (reserveLivestreamHandler fillUserResponse {} (.ok 7) (.ok (some reversedReq))
        fullSlotDB).2.livestreams
        = fullSlotDB.livestreams ++ [newLivestreamModel 7 reversedReq fullSlotDB] ∧
      (reserveLivestreamHandler fillUserResponse {} (.ok 7) (.ok (some reversedReq))
        fullSlotDB).2 = afterInserts 7 reversedReq fullSlotDB :=
  reserve_without_whole_slot_unchecked fillUserResponse {} 7 reversedReq fullSlotDB
    ⟨7, "alice", "Alice", "streamer"⟩
    ⟨7, "alice", "Alice", "streamer", ⟨1, true⟩, defaultIconHash⟩
    (by decide) (by decide)
    ⟨rfl, rfl, fun _ => rfl, rfl, rfl, rfl, fun _ => rfl, rfl, rfl, rfl, rfl⟩
    (by decide) (by decide)

/-! ## C12 -/

/-- C12 fails on the code: the body `null` is decoded without error and leaves the pointer req
nil, so the handler is not stopped by the 400 of line 94 and, once the transaction has begun,
the read of req.StartAt at line 107 dereferences nil.  It is the only such body: every other
body is refused at decoding or yields a non-nil request. -/
theorem reserve_null_body_dereferences_nil :
    decodeBody .null = .ok none ∧
    reserveLivestreamHandler fillUserResponse {} (.ok 7) (decodeBody .null) sampleDB
      = (.nilPanic, sampleDB) ∧
    (reserveLivestreamHandler fillUserResponse {} (.ok 7) (decodeBody .null)
      sampleDB).1.status ≠ some 400 ∧
    (∀ b : RequestBody, decodeBody b = .ok none ↔ b = .null) ∧
    (∀ (b : RequestBody) (fillUser : DB → UserModel → Except String User) (f : ReserveFaults)
        (userID : Int) (db : DB), b ≠ .null →
      (reserveLivestreamHandler fillUser f (.ok userID) (decodeBody b) db).1 ≠ .nilPanic) := by
  refine ⟨rfl, by decide, by decide, ?_, ?_⟩
  · intro b
    cases b with
    | malformed => simp [decodeBody]
    | null => simp [decodeBody]
    | object fields => cases fields <;> simp [decodeBody]
    | otherValue => simp [decodeBody]
  · intro b fillUser f userID db hb
    cases b with
    | malformed => simp [decodeBody, reserveLivestreamHandler]
    | null => exact absurd rfl hb
    | otherValue => simp [decodeBody, reserveLivestreamHandler]
    | object fields =>
      cases fields with
      | error e => simp [decodeBody, reserveLivestreamHandler]
      | ok req =>
        simp only [decodeBody, reserveLivestreamHandler]
        cases f.beginTx
        · cases reserveTx fillUser f userID req db with
          | error e => simp
          | ok p => cases f.commit <;> simp
        · simp

end Isucon13
